import Mathlib

/-!
# Verification of the statistics aggregation engine

A shallow embedding of the statistics aggregation engine of the
PITC-technical-task repository (Django app `stat_analysis` together with the
entities it reads from `execution.models`), and proofs of the specification
claims about it.

Modelling conventions:
* timestamps (`DateTimeField`) are abstract integers with their linear order;
* monetary amounts (`DecimalField`) and computed rates/averages are exact
  rationals (`ℚ`); Python's float / `Decimal` arithmetic on these values is
  modelled exactly;
* a database table is a list of rows; a Django row object is a structure
  holding the fields the engine reads;
* Django querysets are lists; `.filter(...)` is `List.filter`;
* fallible Python code (raising `ValidationError` / `ValueError`) returns
  `Except`.
-/

namespace StatAnalysis

/-- Job execution states (`execution/models.py`, `Job.STATE_CHOICES`). -/
inductive JobStatus where
  | pending
  | in_progress
  | completed
  | failed
deriving DecidableEq, Repr

/-- Job types (`execution/models.py`, `Job.JOB_TYPE_CHOICES`). -/
inductive JobType where
  | validation
  | processing
  | shipping
  | reporting
deriving DecidableEq, Repr

/-- Order states (`execution/models.py`, `Order.status` choices). -/
inductive OrderStatus where
  | pending
  | processing
  | completed
  | cancelled
  | refunded
deriving DecidableEq, Repr

/-- The order in which `calculate_job_statistics` iterates job types:
`dict(Job._meta.get_field('job_type').choices).keys()`. -/
def jobTypeChoices : List JobType :=
  [.validation, .processing, .shipping, .reporting]

/-- `execution.models.Job` restricted to the fields the aggregation engine
reads.  `service_provider` is a nullable foreign key. -/
structure Job where
  id : Nat
  service_provider : Option Nat
  job_type : JobType
  status : JobStatus
  started_at : Option Int
  completed_at : Option Int
  created_at : Int
deriving DecidableEq, Repr

/-- `execution.models.Order` restricted to the fields the engine reads.
`service_providers` is the set of providers referenced by the order's line
items (`services__service_provider`); the list of orders in a table is
duplicate-free (one element per order row), so filtering it by provider
membership gives the `.distinct()` semantics of the source query. -/
structure Order where
  id : Nat
  customer : Nat
  campaign : Option Nat
  service_providers : List Nat
  total_amount : ℚ
  status : OrderStatus
  created_at : Int
deriving DecidableEq, Repr

/-- `execution.models.Customer` restricted to the fields the engine reads. -/
structure Customer where
  id : Nat
  account_manager : Option Nat
deriving DecidableEq, Repr

/-- `stat_analysis.models.Report`.  `start_date` and `end_date` are `Option`
because the calculators explicitly check them for `None`.  `status` is the
dynamic Python attribute that `generate_report` sets on the report object
(`stat_analysis/models.py` declares no status column; the attribute lives on
the object, which is what this structure models), absent (`none`) until
assigned. -/
structure Report where
  id : Nat
  title : String
  description : String
  start_date : Option Int
  end_date : Option Int
  created_by : Option Nat
  status : Option String
deriving DecidableEq, Repr

/-- A `stat_analysis.models.JobStatistics` row (unique on
`(report, service_provider, job_type)`). -/
structure JobStatRow where
  report : Nat
  service_provider : Nat
  job_type : JobType
  total_jobs : Nat
  completed_jobs : Nat
  failed_jobs : Nat
  average_completion_time : Option ℚ
deriving DecidableEq, Repr

/-- A `stat_analysis.models.OrderStatistics` row (unique on
`(report, service_provider)`). -/
structure OrderStatRow where
  report : Nat
  service_provider : Nat
  total_orders : Nat
  total_revenue : ℚ
  average_order_value : ℚ
  completion_rate : ℚ
deriving DecidableEq, Repr

/-- A `stat_analysis.models.UserStatistics` row (unique on
`(report, account_manager)`). -/
structure UserStatRow where
  report : Nat
  account_manager : Nat
  total_customers : Nat
  total_orders : Nat
  total_revenue : ℚ
  average_customer_value : ℚ
deriving DecidableEq, Repr

/-- A `stat_analysis.models.CampaignStatistics` row (unique on
`(report, campaign)`). -/
structure CampaignStatRow where
  report : Nat
  campaign : Nat
  total_orders : Nat
  completed_orders : Nat
  cancelled_orders : Nat
  total_revenue : ℚ
  conversion_rate : ℚ
deriving DecidableEq, Repr

/-- The persisted state the engine touches: the dimension tables it iterates,
the record streams it aggregates, and the report/statistics tables it
writes.  `nextReportId` models the primary-key sequence of the report
table. -/
structure DbState where
  service_providers : List Nat
  account_managers : List Nat
  campaigns : List Nat
  customers : List Customer
  jobs : List Job
  orders : List Order
  reports : List Report
  jobStats : List JobStatRow
  orderStats : List OrderStatRow
  userStats : List UserStatRow
  campaignStats : List CampaignStatRow
  nextReportId : Nat
deriving DecidableEq, Repr

section Upsert

variable {R K : Type} [DecidableEq K] (key : R → K)

/-- Django's `Model.objects.update_or_create` keyed by `key`: update the
matching row in place, or append the row if no match exists.  Under each
statistics table's `unique_together` constraint at most one row can match,
so updating the first match is the source's get-then-update semantics. -/
def upsertBy : List R → R → List R
  | [], row => [row]
  | x :: xs, row => if key x = key row then row :: xs else x :: upsertBy xs row

/-- The shared per-dimension-key loop of the four calculators: visit every
key in order and upsert the row computed for it. -/
def runKeys (compute : K → R) : List K → List R → List R
  | [], tbl => tbl
  | k :: ks, tbl => runKeys compute ks (upsertBy key tbl (compute k))

/-- The same loop with the per-key body's fallibility explicit: the body
(`try:` block of the source loop) may fail with an unexpected error, in
which case the key is skipped and the error is appended to the log
(`logger.error`), and iteration continues.  An infallible body recovers
`runKeys` (`runKeysE_ok`). -/
def runKeysE (compute : K → Except String R) :
    List K → List R × List String → List R × List String
  | [], acc => acc
  | k :: ks, acc =>
    match compute k with
    | .ok row => runKeysE compute ks (upsertBy key acc.1 row, acc.2)
    | .error e => runKeysE compute ks (acc.1, acc.2 ++ [e])

end Upsert

/-- The calculators' shared error taxonomy (each case is one of the
`raise ValidationError(...)` sites at the top of every
`calculate_*_statistics` function). -/
inductive CalcError where
  | reportRequired
  | wrongReportType (tyName : String)
  | windowIncomplete
  | invalidWindow
deriving DecidableEq, Repr

/-- The message each `ValidationError` carries in the source. -/
def CalcError.message : CalcError → String
  | .reportRequired => "Report object cannot be None"
  | .wrongReportType ty => "Expected Report object, got " ++ ty
  | .windowIncomplete => "Report must have both start_date and end_date defined"
  | .invalidWindow => "Start date must be before end date"

/-- The `report` argument a caller passes to a calculator: Python's `None`,
a value that is not a `Report` instance (carrying its type name), or an
actual report. -/
inductive ReportArg where
  | noneArg
  | wrongType (tyName : String)
  | reportArg (r : Report)
deriving DecidableEq, Repr

/-- The precondition ladder every `calculate_*_statistics` runs before any
aggregation: `report is None`, `isinstance(report, Report)`,
`start_date`/`end_date` present, `start_date < end_date`.  Returns the
validated report with its two endpoints. -/
def checkReportPre : ReportArg → Except CalcError (Report × Int × Int)
  | .noneArg => .error .reportRequired
  | .wrongType ty => .error (.wrongReportType ty)
  | .reportArg r =>
    match r.start_date, r.end_date with
    | some sd, some ed =>
      if sd ≥ ed then .error .invalidWindow else .ok (r, sd, ed)
    | some _, none => .error .windowIncomplete
    | none, _ => .error .windowIncomplete

/-- The default job record set when no queryset is passed:
`Job.objects.filter(created_at__gte=start_date, created_at__lte=end_date)`.
Note both bounds are inclusive (`gte`/`lte`). -/
def jobsInWindow (start_date end_date : Int) (jobs : List Job) : List Job :=
  jobs.filter (fun j =>
    decide (start_date ≤ j.created_at ∧ j.created_at ≤ end_date))

/-- The default order record set:
`Order.objects.filter(created_at__gte=start_date, created_at__lte=end_date)`
(the `select_related` calls only prefetch and do not change the set). -/
def ordersInWindow (start_date end_date : Int) (orders : List Order) :
    List Order :=
  orders.filter (fun o =>
    decide (start_date ≤ o.created_at ∧ o.created_at ≤ end_date))

/-- `jobs_queryset or the default window query` — the record set a job
calculator actually aggregates. -/
def effectiveJobs (start_date end_date : Int) (q : Option (List Job))
    (jobs : List Job) : List Job :=
  match q with
  | none => jobsInWindow start_date end_date jobs
  | some js => js

/-- `orders_queryset or the default window query`. -/
def effectiveOrders (start_date end_date : Int) (q : Option (List Order))
    (orders : List Order) : List Order :=
  match q with
  | none => ordersInWindow start_date end_date orders
  | some os => os

/-- The body of one `calculate_job_statistics` loop iteration
(stat_utils.py lines 46–81): filter the range to the
`(service_provider, job_type)` key, count totals / COMPLETED / FAILED, and
average `completed_at - started_at` over COMPLETED jobs that have both
timestamps (`None` when that subset is empty). -/
def jobStatRowFor (rid : Nat) (jobs : List Job) (sp : Nat) (jt : JobType) :
    JobStatRow :=
  let relevant_jobs := jobs.filter (fun j =>
    decide (j.service_provider = some sp ∧ j.job_type = jt))
  let completed_timed_jobs := relevant_jobs.filter (fun j =>
    decide (j.status = .completed ∧ j.started_at ≠ none ∧
      j.completed_at ≠ none))
  { report := rid
    service_provider := sp
    job_type := jt
    total_jobs := relevant_jobs.length
    completed_jobs :=
      (relevant_jobs.filter (fun j => decide (j.status = .completed))).length
    failed_jobs :=
      (relevant_jobs.filter (fun j => decide (j.status = .failed))).length
    average_completion_time :=
      if completed_timed_jobs = [] then none
      else some
        (((completed_timed_jobs.map (fun j =>
          ((j.completed_at.getD 0 - j.started_at.getD 0 : Int) : ℚ))).sum) /
          completed_timed_jobs.length) }

/-- The body of one `calculate_order_statistics` loop iteration
(stat_utils.py lines 126–155): orders whose line items touch the provider
(`services__service_provider=...`, de-duplicated), revenue and count over
COMPLETED ones, average order value and completion rate with explicit
zero-denominator guards. -/
def orderStatRowFor (rid : Nat) (orders : List Order) (sp : Nat) :
    OrderStatRow :=
  let provider_orders := orders.filter (fun o =>
    decide (sp ∈ o.service_providers))
  let total_orders := provider_orders.length
  let total_revenue :=
    ((provider_orders.filter (fun o => decide (o.status = .completed))).map
      (fun o => o.total_amount)).sum
  let completed_orders :=
    (provider_orders.filter (fun o => decide (o.status = .completed))).length
  { report := rid
    service_provider := sp
    total_orders := total_orders
    total_revenue := total_revenue
    average_order_value :=
      if completed_orders > 0 then total_revenue / completed_orders else 0
    completion_rate :=
      if total_orders > 0 then
        (completed_orders : ℚ) / total_orders * 100
      else 0 }

/-- The body of one `calculate_user_statistics` loop iteration
(stat_utils.py lines 200–229): the manager's current customer roster (not
windowed), their in-range orders, COMPLETED revenue, and average revenue
per customer with a zero-roster guard. -/
def userStatRowFor (rid : Nat) (customers : List Customer)
    (orders : List Order) (am : Nat) : UserStatRow :=
  let managed := customers.filter (fun c => decide (c.account_manager = some am))
  let total_customers := managed.length
  let manager_orders := orders.filter (fun o =>
    decide (o.customer ∈ managed.map (fun c => c.id)))
  let total_revenue :=
    ((manager_orders.filter (fun o => decide (o.status = .completed))).map
      (fun o => o.total_amount)).sum
  { report := rid
    account_manager := am
    total_customers := total_customers
    total_orders := manager_orders.length
    total_revenue := total_revenue
    average_customer_value :=
      if total_customers > 0 then total_revenue / total_customers else 0 }

/-- The body of one `calculate_campaign_statistics` loop iteration
(stat_utils.py lines 274–298). -/
def campaignStatRowFor (rid : Nat) (orders : List Order) (c : Nat) :
    CampaignStatRow :=
  let campaign_orders := orders.filter (fun o => decide (o.campaign = some c))
  let total_orders := campaign_orders.length
  let completed_orders :=
    (campaign_orders.filter (fun o => decide (o.status = .completed))).length
  { report := rid
    campaign := c
    total_orders := total_orders
    completed_orders := completed_orders
    cancelled_orders :=
      (campaign_orders.filter (fun o => decide (o.status = .cancelled))).length
    total_revenue :=
      ((campaign_orders.filter (fun o => decide (o.status = .completed))).map
        (fun o => o.total_amount)).sum
    conversion_rate :=
      if total_orders > 0 then
        (completed_orders : ℚ) / total_orders * 100
      else 0 }

/-- Spec-side formula: the COMPLETED jobs of one `(service_provider,
job_type)` key that carry both timestamps — the subset whose arithmetic mean
duration §4.2.1 describes. -/
def completedTimedOf (jobs : List Job) (sp : Nat) (jt : JobType) : List Job :=
  jobs.filter (fun j =>
    decide ((j.service_provider = some sp ∧ j.job_type = jt) ∧
      j.status = .completed ∧ j.started_at ≠ none ∧ j.completed_at ≠ none))

/-- Spec-side formula: the arithmetic mean of `completed_at − started_at`
over a list of jobs. -/
def meanDuration (sub : List Job) : ℚ :=
  ((sub.map (fun j =>
    ((j.completed_at.getD 0 - j.started_at.getD 0 : Int) : ℚ))).sum) /
    sub.length

/-- Spec-side formula: the COMPLETED in-window orders touching one
provider. -/
def completedProviderOrders (orders : List Order) (sp : Nat) : List Order :=
  orders.filter (fun o =>
    decide (sp ∈ o.service_providers ∧ o.status = .completed))

/-- The natural key of a `JobStatistics` row
(`unique_together = ['report', 'service_provider', 'job_type']`). -/
def jobKey (x : JobStatRow) : Nat × Nat × JobType :=
  (x.report, x.service_provider, x.job_type)

/-- The natural key of an `OrderStatistics` row. -/
def orderKey (x : OrderStatRow) : Nat × Nat :=
  (x.report, x.service_provider)

/-- The natural key of a `UserStatistics` row. -/
def userKey (x : UserStatRow) : Nat × Nat :=
  (x.report, x.account_manager)

/-- The natural key of a `CampaignStatistics` row. -/
def campaignKey (x : CampaignStatRow) : Nat × Nat :=
  (x.report, x.campaign)

/-- The keys the nested `for service_provider ... for job_type ...` loop
visits, flattened in iteration order. -/
def jobKeys (rid : Nat) (providers : List Nat) : List (Nat × Nat × JobType) :=
  providers.flatMap (fun sp => jobTypeChoices.map (fun jt => (rid, sp, jt)))

/-- Keys of the `for service_provider in ServiceProvider.objects.all()`
loop. -/
def orderKeys (rid : Nat) (providers : List Nat) : List (Nat × Nat) :=
  providers.map (fun sp => (rid, sp))

/-- Keys of the `for account_manager in AccountManager.objects.all()`
loop. -/
def userKeys (rid : Nat) (managers : List Nat) : List (Nat × Nat) :=
  managers.map (fun am => (rid, am))

/-- Keys of the `for campaign in Campaign.objects.all()` loop. -/
def campaignKeys (rid : Nat) (campaigns : List Nat) : List (Nat × Nat) :=
  campaigns.map (fun c => (rid, c))

/-- `calculate_job_statistics(report, jobs_queryset=None)`
(stat_utils.py lines 15–86).  The source's queryset-model check (lines
38–40) is enforced here by the embedding's types. -/
def calculate_job_statistics (report : ReportArg)
    (jobs_queryset : Option (List Job)) (db : DbState) :
    Except CalcError DbState := do
  let (r, start_date, end_date) ← checkReportPre report
  let jobs_in_range := effectiveJobs start_date end_date jobs_queryset db.jobs
  let newStats :=
    runKeys jobKey (fun k => jobStatRowFor k.1 jobs_in_range k.2.1 k.2.2)
      (jobKeys r.id db.service_providers) db.jobStats
  pure { db with jobStats := newStats }

/-- `calculate_order_statistics(report, orders_queryset=None)`
(stat_utils.py lines 89–160). -/
def calculate_order_statistics (report : ReportArg)
    (orders_queryset : Option (List Order)) (db : DbState) :
    Except CalcError DbState := do
  let (r, start_date, end_date) ← checkReportPre report
  let orders_in_range :=
    effectiveOrders start_date end_date orders_queryset db.orders
  let newStats :=
    runKeys orderKey (fun k => orderStatRowFor k.1 orders_in_range k.2)
      (orderKeys r.id db.service_providers) db.orderStats
  pure { db with orderStats := newStats }

/-- `calculate_user_statistics(report, orders_queryset=None)`
(stat_utils.py lines 163–234). -/
def calculate_user_statistics (report : ReportArg)
    (orders_queryset : Option (List Order)) (db : DbState) :
    Except CalcError DbState := do
  let (r, start_date, end_date) ← checkReportPre report
  let orders_in_range :=
    effectiveOrders start_date end_date orders_queryset db.orders
  let newStats :=
    runKeys userKey (fun k => userStatRowFor k.1 db.customers orders_in_range k.2)
      (userKeys r.id db.account_managers) db.userStats
  pure { db with userStats := newStats }

/-- `calculate_campaign_statistics(report, orders_queryset=None)`
(stat_utils.py lines 237–303). -/
def calculate_campaign_statistics (report : ReportArg)
    (orders_queryset : Option (List Order)) (db : DbState) :
    Except CalcError DbState := do
  let (r, start_date, end_date) ← checkReportPre report
  let orders_in_range :=
    effectiveOrders start_date end_date orders_queryset db.orders
  let newStats :=
    runKeys campaignKey (fun k => campaignStatRowFor k.1 orders_in_range k.2)
      (campaignKeys r.id db.campaigns) db.campaignStats
  pure { db with campaignStats := newStats }

/-- The shape shared by all four calculators: the precondition ladder, then
the per-key loop with `try/except` isolation (`runKeysE`).  `compute` is the
body of one loop iteration (aggregate and upsert one key); a `.error` result
models an unexpected exception raised inside the `try:` block and caught by
the `except Exception` clause. -/
def calculatorRun {R K : Type} [DecidableEq K] (key : R → K)
    (report : ReportArg) (compute : K → Except String R) (ks : List K)
    (tbl : List R) : Except CalcError (List R × List String) := do
  let _ ← checkReportPre report
  pure (runKeysE key compute ks (tbl, []))

/-- What `calculate_job_statistics` commits on success. -/
def jobCalcResult (rid : Nat) (jobs : List Job) (db : DbState) : DbState :=
  let newStats :=
    runKeys jobKey (fun k => jobStatRowFor k.1 jobs k.2.1 k.2.2)
      (jobKeys rid db.service_providers) db.jobStats
  { db with jobStats := newStats }

/-- What `calculate_order_statistics` commits on success. -/
def orderCalcResult (rid : Nat) (orders : List Order) (db : DbState) :
    DbState :=
  let newStats :=
    runKeys orderKey (fun k => orderStatRowFor k.1 orders k.2)
      (orderKeys rid db.service_providers) db.orderStats
  { db with orderStats := newStats }

/-- What `calculate_user_statistics` commits on success. -/
def userCalcResult (rid : Nat) (orders : List Order) (db : DbState) :
    DbState :=
  let newStats :=
    runKeys userKey (fun k => userStatRowFor k.1 db.customers orders k.2)
      (userKeys rid db.account_managers) db.userStats
  { db with userStats := newStats }

/-- What `calculate_campaign_statistics` commits on success. -/
def campaignCalcResult (rid : Nat) (orders : List Order) (db : DbState) :
    DbState :=
  let newStats :=
    runKeys campaignKey (fun k => campaignStatRowFor k.1 orders k.2)
      (campaignKeys rid db.campaigns) db.campaignStats
  { db with campaignStats := newStats }

/-- The `created_by` argument of `generate_report`: `None`, a value that is
not a Django model instance, or a valid user/manager instance (by id). -/
inductive CreatorArg where
  | noneArg
  | notAModel
  | user (id : Nat)
deriving DecidableEq, Repr

/-- The `ValidationError` raised out of `generate_report`. -/
inductive GenError where
  | validationFailure (msg : String)
deriving DecidableEq, Repr

/-- An error escaping the transaction body of `generate_report`: a re-raised
`ValidationError` from a calculator, or an unexpected exception (the
`except Exception` path). -/
inductive BodyErr where
  | validation (e : CalcError)
  | unexpected (msg : String)
deriving DecidableEq, Repr

/-- The report object `Report.objects.create(...)` builds inside
`generate_report` (before the status attribute is assigned). -/
def createdReport (title description : String) (sd ed : Int) (uid : Nat)
    (db : DbState) : Report :=
  { id := db.nextReportId, title := title, description := description,
    start_date := some sd, end_date := some ed, created_by := some uid,
    status := none }

/-- The report `generate_report` returns on success: the created report with
`status = 'COMPLETED'` assigned. -/
def completedReport (title description : String) (sd ed : Int) (uid : Nat)
    (db : DbState) : Report :=
  { createdReport title description sd ed uid db with
      status := some "COMPLETED" }

/-- The body of the `with transaction.atomic():` block of `generate_report`
(stat_utils.py lines 328–353): create the report row, prefetch the window's
job and order sets once, run the four calculators on them, then set
`status = 'COMPLETED'` and save.  `fault` injects an unexpected exception
after the calculator runs (any `.error` makes the surrounding transaction
roll back). -/
def generateReportBody (title description : String) (sd ed : Int) (uid : Nat)
    (fault : Option String) (db : DbState) :
    Except BodyErr (DbState × Report) := do
  let report := createdReport title description sd ed uid db
  let db1 : DbState :=
    { db with reports := db.reports ++ [report],
              nextReportId := db.nextReportId + 1 }
  let jobs_in_range := jobsInWindow sd ed db1.jobs
  let orders_in_range := ordersInWindow sd ed db1.orders
  let db2 ← (calculate_job_statistics (.reportArg report)
    (some jobs_in_range) db1).mapError .validation
  let db3 ← (calculate_order_statistics (.reportArg report)
    (some orders_in_range) db2).mapError .validation
  let db4 ← (calculate_user_statistics (.reportArg report)
    (some orders_in_range) db3).mapError .validation
  let db5 ← (calculate_campaign_statistics (.reportArg report)
    (some orders_in_range) db4).mapError .validation
  match fault with
  | some m => .error (.unexpected m)
  | none =>
    let report2 := completedReport title description sd ed uid db
    let db6 : DbState :=
      { db5 with reports :=
          db5.reports.map (fun x => if x.id = report.id then report2 else x) }
    pure (db6, report2)

/-- `generate_report(title, description, start_date, end_date, created_by)`
(stat_utils.py lines 306–370): the validation ladder runs before anything is
created; then one atomic transaction wraps report creation, the four
calculator runs and the COMPLETED status update.  The returned `DbState` is
what the caller observes afterwards: the original state whenever the call
raises, because every validation failure happens before any write and
`transaction.atomic` rolls back all writes on a propagating error. -/
def generate_report (title description : String)
    (start_date end_date : Option Int) (created_by : CreatorArg)
    (fault : Option String) (db : DbState) :
    DbState × Except GenError Report :=
  if title = "" ∨ description = "" then
    (db, .error (.validationFailure "Title and description are required"))
  else
    match start_date, end_date with
    | some sd, some ed =>
      if sd ≥ ed then
        (db, .error (.validationFailure "Start date must be before end date"))
      else
        match created_by with
        | .noneArg =>
          (db, .error (.validationFailure
            "Valid created by user or manager instance is required"))
        | .notAModel =>
          (db, .error (.validationFailure
            "Valid created by user or manager instance is required"))
        | .user uid =>
          match generateReportBody title description sd ed uid fault db with
          | .ok (db', rep) => (db', .ok rep)
          | .error (.validation e) =>
            (db, .error (.validationFailure e.message))
          | .error (.unexpected m) =>
            (db, .error (.validationFailure
              ("Failed to generate report due to an internal error: " ++ m)))
    | _, _ =>
      (db, .error (.validationFailure "Start date and end date are required"))

/-- The state `generate_report` commits on success: the created report row,
the four calculators' upsert batches over the window's prefetched record
sets, and the saved COMPLETED status. -/
def genSuccessState (title description : String) (sd ed : Int) (uid : Nat)
    (db : DbState) : DbState :=
  let report := createdReport title description sd ed uid db
  let db1 : DbState :=
    { db with reports := db.reports ++ [report],
              nextReportId := db.nextReportId + 1 }
  let db2 := jobCalcResult report.id (jobsInWindow sd ed db.jobs) db1
  let db3 := orderCalcResult report.id (ordersInWindow sd ed db.orders) db2
  let db4 := userCalcResult report.id (ordersInWindow sd ed db.orders) db3
  let db5 := campaignCalcResult report.id (ordersInWindow sd ed db.orders) db4
  { db5 with reports := db5.reports.map (fun x =>
      if x.id = report.id then
        completedReport title description sd ed uid db
      else x) }

/-- The `post_save` receiver `calculate_report_statistics(sender, instance,
created, **kwargs)` (signals.py lines 12–24).  `created` stands for
`created or instance._state.adding`; both source branches run the same
three calculators — job, order and user — and neither branch ever calls
`calculate_campaign_statistics`. -/
def calculate_report_statistics (inst : ReportArg) (created : Bool)
    (db : DbState) : Except CalcError DbState :=
  if created then do
    let s1 ← calculate_job_statistics inst none db
    let s2 ← calculate_order_statistics inst none s1
    calculate_user_statistics inst none s2
  else do
    let s1 ← calculate_job_statistics inst none db
    let s2 ← calculate_order_statistics inst none s1
    calculate_user_statistics inst none s2

/-- Scenario fixture (spec section 8): a 100-unit order for provider 1. -/
def scOrder (i : Nat) (st : OrderStatus) : Order :=
  { id := i, customer := 0, campaign := some 3, service_providers := [1],
    total_amount := 100, status := st, created_at := 5 }

/-- Scenario fixture: a customer of account manager 9. -/
def scCust (i : Nat) : Customer :=
  { id := i, account_manager := some 9 }

/-- Scenario fixture: a 150-unit COMPLETED order by customer 1. -/
def scOrder150 : Order :=
  { id := 1, customer := 1, campaign := none, service_providers := [],
    total_amount := 150, status := .completed, created_at := 5 }

/-- Concrete fixture: a report with the valid window `[0, 10]`. -/
def sampleReport : Report :=
  { id := 0, title := "Q", description := "D", start_date := some 0,
    end_date := some 10, created_by := some 1, status := none }

/-- Concrete fixture: a pre-existing campaign-statistics row. -/
def sampleCampRow : CampaignStatRow :=
  { report := 0, campaign := 5, total_orders := 2, completed_orders := 1,
    cancelled_orders := 1, total_revenue := 100, conversion_rate := 50 }

/-- Concrete fixture: a database with no dimension values to iterate for
job/order/user statistics but one campaign-statistics row already stored. -/
def sampleDb0 : DbState :=
  { service_providers := [], account_managers := [], campaigns := [5],
    customers := [], jobs := [], orders := [], reports := [sampleReport],
    jobStats := [], orderStats := [], userStats := [],
    campaignStats := [sampleCampRow], nextReportId := 1 }

/-- Concrete fixture: a FAILED job created exactly at the window's end
timestamp. -/
def cxJob : Job :=
  { id := 1, service_provider := some 1, job_type := .validation,
    status := .failed, started_at := some 3, completed_at := some 8,
    created_at := 10 }

/-- The statistics row the job calculator stores for `cxDb`'s single key:
the end-timestamp job is counted. -/
def cxRow : JobStatRow :=
  { report := 0, service_provider := 1, job_type := JobType.validation,
    total_jobs := 1, completed_jobs := 0, failed_jobs := 1,
    average_completion_time := none }

/-- Concrete fixture: a database holding only `cxJob` and one provider. -/
def cxDb : DbState :=
  { service_providers := [1], account_managers := [], campaigns := [],
    customers := [], jobs := [cxJob], orders := [], reports := [sampleReport],
    jobStats := [], orderStats := [], userStats := [], campaignStats := [],
    nextReportId := 1 }

end StatAnalysis

namespace PITCTask

/-- A `datetime.date` value with Python's chronological (lexicographic)
comparison.  Models the dates handled by the quarter resolver of the
`PITC - Code for technical task` variant of `stat_utils.py`. -/
structure QDate where
  year : Int
  month : Nat
  day : Nat
deriving DecidableEq, Repr

/-- Python's `a <= b` on dates. -/
def QDate.ble (a b : QDate) : Bool :=
  decide (a.year < b.year ∨ (a.year = b.year ∧
    (a.month < b.month ∨ (a.month = b.month ∧ a.day ≤ b.day))))

/-- Python's `min(a, b)` on dates. -/
def QDate.dmin (a b : QDate) : QDate := if a.ble b then a else b

/-- Python's `max(a, b)` on dates (on ties the two values are equal, so
which operand is returned is immaterial). -/
def QDate.dmax (a b : QDate) : QDate := if a.ble b then b else a

/-- The `ValueError` of `get_quarter_dates`. -/
inductive QuarterError where
  | invalidQuarter (msg : String)
deriving DecidableEq, Repr

/-- `get_quarter_dates(quarter, year)` (PITC task `stat_utils.py` lines
23–50). -/
def get_quarter_dates (quarter : String) (year : Int) :
    Except QuarterError (QDate × QDate) :=
  if quarter = "Q1" then .ok (⟨year, 1, 1⟩, ⟨year, 3, 31⟩)
  else if quarter = "Q2" then .ok (⟨year, 4, 1⟩, ⟨year, 6, 30⟩)
  else if quarter = "Q3" then .ok (⟨year, 7, 1⟩, ⟨year, 9, 30⟩)
  else if quarter = "Q4" then .ok (⟨year, 10, 1⟩, ⟨year, 12, 31⟩)
  else .error (.invalidQuarter "Invalid quarter. Please use Q1, Q2, Q3, or Q4.")

/-- The window-resolution prefix of `calculate_job_stats(quarter_from,
year_from, quarter_to, year_to)` (lines 67–71): resolve both endpoints with
`get_quarter_dates`, then take the minimum of the two start dates and the
maximum of the two end dates — with no check that `from` chronologically
precedes `to`. -/
def calculate_job_stats_window (quarter_from : String) (year_from : Int)
    (quarter_to : String) (year_to : Int) :
    Except QuarterError (QDate × QDate) := do
  let (start_date_from, end_date_from) ←
    get_quarter_dates quarter_from year_from
  let (start_date_to, end_date_to) ← get_quarter_dates quarter_to year_to
  pure (QDate.dmin start_date_from start_date_to,
    QDate.dmax end_date_from end_date_to)

end PITCTask

/-! ## Theorems -/

namespace StatAnalysis

section UpsertLemmas

variable {R K : Type} [DecidableEq K] (key : R → K)

theorem upsertBy_cons_pos {x row : R} (xs : List R) (h : key x = key row) :
    upsertBy key (x :: xs) row = row :: xs := by
  simp [upsertBy, h]

theorem upsertBy_cons_neg {x row : R} (xs : List R) (h : ¬ key x = key row) :
    upsertBy key (x :: xs) row = x :: upsertBy key xs row := by
  simp [upsertBy, h]

theorem mem_upsertBy_self (tbl : List R) (row : R) : row ∈ upsertBy key tbl row := by
  induction tbl with
  | nil => simp [upsertBy]
  | cons x xs ih =>
    by_cases h : key x = key row <;> simp [upsertBy, h, ih]

theorem mem_upsertBy_of_ne {x row : R} (tbl : List R) (hne : key x ≠ key row)
    (hx : x ∈ tbl) : x ∈ upsertBy key tbl row := by
  induction tbl with
  | nil => cases hx
  | cons y ys ih =>
    by_cases h : key y = key row
    · simp only [upsertBy, if_pos h, List.mem_cons]
      rcases List.mem_cons.mp hx with rfl | hmem
      · exact absurd h hne
      · exact Or.inr hmem
    · simp only [upsertBy, if_neg h, List.mem_cons]
      rcases List.mem_cons.mp hx with rfl | hmem
      · exact Or.inl rfl
      · exact Or.inr (ih hmem)

/-- Rows at a key different from the upserted row's key are untouched. -/
theorem filter_upsertBy_of_ne {k : K} (tbl : List R) (row : R)
    (hne : k ≠ key row) :
    (upsertBy key tbl row).filter (fun x => decide (key x = k)) =
      tbl.filter (fun x => decide (key x = k)) := by
  induction tbl with
  | nil =>
    simp [upsertBy, hne.symm]
  | cons x xs ih =>
    by_cases h : key x = key row
    · have hxk : ¬ key x = k := fun hk => hne (hk ▸ h)
      have hrk : ¬ key row = k := fun hk => hne hk.symm
      rw [upsertBy_cons_pos key xs h, List.filter_cons, List.filter_cons]
      simp [hxk, hrk]
    · rw [upsertBy_cons_neg key xs h, List.filter_cons, List.filter_cons]
      by_cases hxk : key x = k <;> simp [hxk, ih]

/-- Upserting into a table with no matching row appends exactly one matching
row. -/
theorem filter_upsertBy_of_fresh (tbl : List R) (row : R)
    (hfresh : tbl.filter (fun x => decide (key x = key row)) = []) :
    (upsertBy key tbl row).filter (fun x => decide (key x = key row)) = [row] := by
  induction tbl with
  | nil => simp [upsertBy]
  | cons x xs ih =>
    rw [List.filter_cons] at hfresh
    by_cases h : key x = key row
    · simp [h] at hfresh
    · simp only [decide_eq_true_eq, h, if_false] at hfresh
      simp [upsertBy, h, List.filter_cons, ih hfresh]

/-- If the table's only matching row already equals the new row, the upsert is
a no-op. -/
theorem upsertBy_eq_of_filter_singleton (tbl : List R) (row : R)
    (hone : tbl.filter (fun x => decide (key x = key row)) = [row]) :
    upsertBy key tbl row = tbl := by
  induction tbl with
  | nil => simp at hone
  | cons x xs ih =>
    rw [List.filter_cons] at hone
    by_cases h : key x = key row
    · simp only [decide_eq_true_eq, h, if_true] at hone
      have hx : x = row := (List.cons.injEq _ _ _ _).mp hone |>.1
      simp [upsertBy, h, hx]
    · simp only [decide_eq_true_eq, h, if_false] at hone
      simp [upsertBy, h, ih hone]

/-- Upserting the same row twice equals upserting it once. -/
theorem upsertBy_idem (tbl : List R) (row : R) :
    upsertBy key (upsertBy key tbl row) row = upsertBy key tbl row := by
  induction tbl with
  | nil => simp [upsertBy]
  | cons x xs ih =>
    by_cases h : key x = key row <;> simp [upsertBy, h, ih]

/-- A table already fixed by `row` stays fixed after an upsert at another
key. -/
theorem upsertBy_fixed_of_ne (tbl : List R) (row row' : R)
    (hfix : upsertBy key tbl row = tbl) (hne : key row' ≠ key row) :
    upsertBy key (upsertBy key tbl row') row = upsertBy key tbl row' := by
  induction tbl with
  | nil =>
    simp [upsertBy] at hfix
  | cons x xs ih =>
    by_cases h : key x = key row
    · rw [upsertBy_cons_pos key xs h] at hfix
      have hx : row = x := ((List.cons.injEq _ _ _ _).mp hfix).1
      have h' : ¬ key x = key row' := fun hk => hne (hk.symm.trans h)
      rw [upsertBy_cons_neg key xs h',
        upsertBy_cons_pos key (upsertBy key xs row') h, hx]
    · rw [upsertBy_cons_neg key xs h] at hfix
      have hfix' : upsertBy key xs row = xs :=
        ((List.cons.injEq _ _ _ _).mp hfix).2
      by_cases h' : key x = key row'
      · rw [upsertBy_cons_pos key xs h', upsertBy_cons_neg key xs hne, hfix']
      · rw [upsertBy_cons_neg key xs h',
          upsertBy_cons_neg key (upsertBy key xs row') h, ih hfix']

theorem runKeysE_ok (compute : K → R) (ks : List K) (tbl : List R)
    (log : List String) :
    runKeysE key (fun k => .ok (compute k)) ks (tbl, log) =
      (runKeys key compute ks tbl, log) := by
  induction ks generalizing tbl with
  | nil => rfl
  | cons k ks ih => simp [runKeys, runKeysE, ih]

theorem runKeys_mem_preserved {x : R} {compute : K → R} {ks : List K}
    {tbl : List R} (hx : x ∈ tbl)
    (hpres : ∀ k ∈ ks, key (compute k) = key x → compute k = x) :
    x ∈ runKeys key compute ks tbl := by
  induction ks generalizing tbl with
  | nil => exact hx
  | cons k ks ih =>
    have hx' : x ∈ upsertBy key tbl (compute k) := by
      by_cases h : key (compute k) = key x
      · have := hpres k (List.mem_cons_self k ks) h
        rw [← this] at hx ⊢
        exact mem_upsertBy_self key tbl (compute k)
      · exact mem_upsertBy_of_ne key tbl (fun hk => h hk.symm) hx
    exact ih hx' (fun k' hk' => hpres k' (List.mem_cons_of_mem _ hk'))

/-- Every visited key's computed row is in the resulting table. -/
theorem runKeys_mem {compute : K → R} {ks : List K} {k : K}
    (hk : ∀ k' ∈ ks, key (compute k') = k') (hkmem : k ∈ ks) (tbl : List R) :
    compute k ∈ runKeys key compute ks tbl := by
  induction ks generalizing tbl with
  | nil => cases hkmem
  | cons k0 ks ih =>
    rcases List.mem_cons.mp hkmem with rfl | hmem
    · rw [runKeys]
      refine runKeys_mem_preserved key (mem_upsertBy_self key tbl (compute k)) ?_
      intro k' hk' hkey
      have h1 : key (compute k') = k' := hk k' (List.mem_cons_of_mem _ hk')
      have h2 : key (compute k) = k := hk k (List.mem_cons_self _ _)
      rw [h1, h2] at hkey
      rw [hkey]
    · exact ih (fun k' hk' => hk k' (List.mem_cons_of_mem _ hk')) hmem _

/-- Keys never visited keep exactly their previous rows. -/
theorem runKeys_filter_frame {compute : K → R} {ks : List K} {k : K}
    (hne : ∀ k' ∈ ks, key (compute k') ≠ k) (tbl : List R) :
    (runKeys key compute ks tbl).filter (fun x => decide (key x = k)) =
      tbl.filter (fun x => decide (key x = k)) := by
  induction ks generalizing tbl with
  | nil => rfl
  | cons k0 ks ih =>
    rw [runKeys, ih (fun k' hk' => hne k' (List.mem_cons_of_mem _ hk')),
      filter_upsertBy_of_ne key tbl (compute k0)
        (fun hk => hne k0 (List.mem_cons_self _ _) hk.symm)]

/-- After the loop, a visited key whose previous rows were empty or already
up to date holds exactly its computed row. -/
theorem runKeys_filter_eq {compute : K → R} {ks : List K} {k : K}
    (hk : ∀ k' ∈ ks, key (compute k') = k') (hkmem : k ∈ ks) (tbl : List R)
    (hprev : tbl.filter (fun x => decide (key x = k)) = [] ∨
      tbl.filter (fun x => decide (key x = k)) = [compute k]) :
    (runKeys key compute ks tbl).filter (fun x => decide (key x = k)) =
      [compute k] := by
  induction ks generalizing tbl with
  | nil => cases hkmem
  | cons k0 ks ih =>
    have hk0 : key (compute k0) = k0 := hk k0 (List.mem_cons_self _ _)
    by_cases heq : k0 = k
    · subst heq
      have hnext : (upsertBy key tbl (compute k0)).filter
          (fun x => decide (key x = k0)) = [compute k0] := by
        rcases hprev with hempty | hsat
        · have := filter_upsertBy_of_fresh key tbl (compute k0) (by rwa [hk0])
          rwa [hk0] at this
        · rw [upsertBy_eq_of_filter_singleton key tbl (compute k0)
            (by rwa [hk0])]
          exact hsat
      by_cases hmem : k0 ∈ ks
      · exact ih (fun k' hk' => hk k' (List.mem_cons_of_mem _ hk')) hmem _
          (Or.inr hnext)
      · rw [runKeys, runKeys_filter_frame key ?_ _]
        · exact hnext
        · intro k' hk' hkey
          rw [hk k' (List.mem_cons_of_mem _ hk')] at hkey
          exact hmem (hkey ▸ hk')
    · have hmem : k ∈ ks := by
        rcases List.mem_cons.mp hkmem with rfl | hmem
        · exact absurd rfl heq
        · exact hmem
      refine ih (fun k' hk' => hk k' (List.mem_cons_of_mem _ hk')) hmem _ ?_
      rw [filter_upsertBy_of_ne key tbl (compute k0)
        (fun hkk => heq (by rw [hk0] at hkk; exact hkk.symm))]
      exact hprev

theorem runKeys_fixed {compute : K → R} {ks : List K} {tbl : List R}
    (hfix : ∀ k ∈ ks, upsertBy key tbl (compute k) = tbl) :
    runKeys key compute ks tbl = tbl := by
  induction ks with
  | nil => rfl
  | cons k ks ih =>
    rw [runKeys, hfix k (List.mem_cons_self _ _)]
    exact ih (fun k' hk' => hfix k' (List.mem_cons_of_mem _ hk'))

theorem runKeys_fixed_preserved {compute : K → R} {ks : List K} {row : R}
    {tbl : List R} (hfix : upsertBy key tbl row = tbl)
    (hne : ∀ k ∈ ks, key (compute k) ≠ key row) :
    upsertBy key (runKeys key compute ks tbl) row =
      runKeys key compute ks tbl := by
  induction ks generalizing tbl with
  | nil => exact hfix
  | cons k ks ih =>
    rw [runKeys]
    exact ih
      (upsertBy_fixed_of_ne key tbl row (compute k) hfix
        (hne k (List.mem_cons_self _ _)))
      (fun k' hk' => hne k' (List.mem_cons_of_mem _ hk'))

/-- After the loop, re-upserting any visited key's computed row changes
nothing. -/
theorem runKeys_fixed_after {compute : K → R} {ks : List K}
    (hk : ∀ k' ∈ ks, key (compute k') = k') {k : K} (hkmem : k ∈ ks)
    (tbl : List R) :
    upsertBy key (runKeys key compute ks tbl) (compute k) =
      runKeys key compute ks tbl := by
  induction ks generalizing tbl with
  | nil => cases hkmem
  | cons k0 ks ih =>
    by_cases hmem : k ∈ ks
    · exact ih (fun k' hk' => hk k' (List.mem_cons_of_mem _ hk')) hmem _
    · have hk0 : k = k0 := by
        rcases List.mem_cons.mp hkmem with rfl | hmem'
        · rfl
        · exact absurd hmem' hmem
      subst hk0
      rw [runKeys]
      refine runKeys_fixed_preserved key (upsertBy_idem key tbl (compute k)) ?_
      intro k' hk' hkey
      rw [hk k' (List.mem_cons_of_mem _ hk'),
        hk k (List.mem_cons_self _ _)] at hkey
      exact hmem (hkey ▸ hk')

/-- Running the loop a second time over an unchanged table is a no-op. -/
theorem runKeys_idem {compute : K → R} {ks : List K}
    (hk : ∀ k' ∈ ks, key (compute k') = k') (tbl : List R) :
    runKeys key compute ks (runKeys key compute ks tbl) =
      runKeys key compute ks tbl :=
  runKeys_fixed key (fun _ hkmem => runKeys_fixed_after key hk hkmem tbl)

theorem runKeysE_log_mono {compute : K → Except String R} {ks : List K}
    {acc : List R × List String} {e : String} (he : e ∈ acc.2) :
    e ∈ (runKeysE key compute ks acc).2 := by
  induction ks generalizing acc with
  | nil => exact he
  | cons k ks ih =>
    cases hc : compute k with
    | ok row => rw [runKeysE, hc]; exact ih he
    | error e' => rw [runKeysE, hc]; exact ih (List.mem_append_left _ he)

/-- A failing key's error ends up in the log. -/
theorem runKeysE_err_logged {compute : K → Except String R} {ks : List K}
    {k : K} {e : String} (hkmem : k ∈ ks) (he : compute k = .error e)
    (acc : List R × List String) :
    e ∈ (runKeysE key compute ks acc).2 := by
  induction ks generalizing acc with
  | nil => cases hkmem
  | cons k0 ks ih =>
    rcases List.mem_cons.mp hkmem with rfl | hmem
    · rw [runKeysE, he]
      exact runKeysE_log_mono key (List.mem_append_right _ (by simp))
    · cases hc : compute k0 with
      | ok row => rw [runKeysE, hc]; exact ih hmem _
      | error e' => rw [runKeysE, hc]; exact ih hmem _

theorem runKeysE_mem_preserved {compute : K → Except String R} {ks : List K}
    {x : R} {acc : List R × List String} (hx : x ∈ acc.1)
    (hpres : ∀ k ∈ ks, ∀ r, compute k = .ok r → key r = key x → r = x) :
    x ∈ (runKeysE key compute ks acc).1 := by
  induction ks generalizing acc with
  | nil => exact hx
  | cons k ks ih =>
    cases hc : compute k with
    | ok row =>
      rw [runKeysE, hc]
      refine ih ?_ (fun k' h1 => hpres k' (List.mem_cons_of_mem _ h1))
      by_cases h : key row = key x
      · have hrx : row = x := hpres k (List.mem_cons_self _ _) row hc h
        rw [← hrx] at hx ⊢
        exact mem_upsertBy_self key acc.1 row
      · exact mem_upsertBy_of_ne key acc.1 (fun hkk => h hkk.symm) hx
    | error e =>
      rw [runKeysE, hc]
      exact ih hx (fun k' h1 => hpres k' (List.mem_cons_of_mem _ h1))

/-- Every key whose body succeeds gets its computed row stored, whatever
other keys do. -/
theorem runKeysE_ok_mem {compute : K → Except String R} {ks : List K}
    {k : K} {row : R}
    (hk : ∀ k' ∈ ks, ∀ r, compute k' = .ok r → key r = k')
    (hkmem : k ∈ ks) (hok : compute k = .ok row)
    (acc : List R × List String) :
    row ∈ (runKeysE key compute ks acc).1 := by
  induction ks generalizing acc with
  | nil => cases hkmem
  | cons k0 ks ih =>
    rcases List.mem_cons.mp hkmem with rfl | hmem
    · rw [runKeysE, hok]
      refine runKeysE_mem_preserved key (mem_upsertBy_self key acc.1 row) ?_
      intro k' hk' r hr hkey
      have h1 : key r = k' := hk k' (List.mem_cons_of_mem _ hk') r hr
      have h2 : key row = k := hk k (List.mem_cons_self _ _) row hok
      rw [h1, h2] at hkey
      rw [hkey] at hr
      exact Except.ok.inj (hr.symm.trans hok)
    · cases hc : compute k0 with
      | ok r0 =>
        rw [runKeysE, hc]
        exact ih (fun k' h1 => hk k' (List.mem_cons_of_mem _ h1)) hmem _
      | error e' =>
        rw [runKeysE, hc]
        exact ih (fun k' h1 => hk k' (List.mem_cons_of_mem _ h1)) hmem _

/-- A failing key's rows are exactly what they were before the run: the key
is skipped, not written. -/
theorem runKeysE_err_frame {compute : K → Except String R} {ks : List K}
    {k : K} {e : String}
    (hk : ∀ k' ∈ ks, ∀ r, compute k' = .ok r → key r = k')
    (he : compute k = .error e) (acc : List R × List String) :
    (runKeysE key compute ks acc).1.filter (fun x => decide (key x = k)) =
      acc.1.filter (fun x => decide (key x = k)) := by
  induction ks generalizing acc with
  | nil => rfl
  | cons k0 ks ih =>
    cases hc : compute k0 with
    | ok row =>
      rw [runKeysE, hc,
        ih (fun k' h1 => hk k' (List.mem_cons_of_mem _ h1)) _]
      refine filter_upsertBy_of_ne key acc.1 row ?_
      intro hkk
      have h0 : key row = k0 := hk k0 (List.mem_cons_self _ _) row hc
      rw [h0] at hkk
      rw [hkk] at he
      exact Except.noConfusion (hc.symm.trans he)
    | error e' =>
      rw [runKeysE, hc]
      exact ih (fun k' h1 => hk k' (List.mem_cons_of_mem _ h1)) _

end UpsertLemmas

theorem checkReportPre_ok {r : Report} {sd ed : Int}
    (hs : r.start_date = some sd) (he : r.end_date = some ed)
    (hlt : sd < ed) : checkReportPre (.reportArg r) = .ok (r, sd, ed) := by
  simp [checkReportPre, hs, he, not_le.mpr hlt]

theorem calculate_job_statistics_ok {ra : ReportArg} {r : Report}
    {sd ed : Int} (h : checkReportPre ra = .ok (r, sd, ed))
    (q : Option (List Job)) (db : DbState) :
    calculate_job_statistics ra q db =
      .ok (jobCalcResult r.id (effectiveJobs sd ed q db.jobs) db) := by
  simp [calculate_job_statistics, h, jobCalcResult]

theorem calculate_job_statistics_err {ra : ReportArg} {e : CalcError}
    (h : checkReportPre ra = .error e) (q : Option (List Job))
    (db : DbState) : calculate_job_statistics ra q db = .error e := by
  simp [calculate_job_statistics, h]

theorem calculate_order_statistics_ok {ra : ReportArg} {r : Report}
    {sd ed : Int} (h : checkReportPre ra = .ok (r, sd, ed))
    (q : Option (List Order)) (db : DbState) :
    calculate_order_statistics ra q db =
      .ok (orderCalcResult r.id (effectiveOrders sd ed q db.orders) db) := by
  simp [calculate_order_statistics, h, orderCalcResult]

theorem calculate_order_statistics_err {ra : ReportArg} {e : CalcError}
    (h : checkReportPre ra = .error e) (q : Option (List Order))
    (db : DbState) : calculate_order_statistics ra q db = .error e := by
  simp [calculate_order_statistics, h]

theorem calculate_user_statistics_ok {ra : ReportArg} {r : Report}
    {sd ed : Int} (h : checkReportPre ra = .ok (r, sd, ed))
    (q : Option (List Order)) (db : DbState) :
    calculate_user_statistics ra q db =
      .ok (userCalcResult r.id (effectiveOrders sd ed q db.orders) db) := by
  simp [calculate_user_statistics, h, userCalcResult]

theorem calculate_user_statistics_err {ra : ReportArg} {e : CalcError}
    (h : checkReportPre ra = .error e) (q : Option (List Order))
    (db : DbState) : calculate_user_statistics ra q db = .error e := by
  simp [calculate_user_statistics, h]

theorem calculate_campaign_statistics_ok {ra : ReportArg} {r : Report}
    {sd ed : Int} (h : checkReportPre ra = .ok (r, sd, ed))
    (q : Option (List Order)) (db : DbState) :
    calculate_campaign_statistics ra q db =
      .ok (campaignCalcResult r.id (effectiveOrders sd ed q db.orders) db) := by
  simp [calculate_campaign_statistics, h, campaignCalcResult]

theorem calculate_campaign_statistics_err {ra : ReportArg} {e : CalcError}
    (h : checkReportPre ra = .error e) (q : Option (List Order))
    (db : DbState) : calculate_campaign_statistics ra q db = .error e := by
  simp [calculate_campaign_statistics, h]

/-- `calculate_job_statistics` is exactly the shared calculator shape
`calculatorRun` with an infallible per-key body. -/
theorem calculate_job_statistics_as_calculatorRun {ra : ReportArg}
    {r : Report} {sd ed : Int} (h : checkReportPre ra = .ok (r, sd, ed))
    (q : Option (List Job)) (db : DbState) :
    calculate_job_statistics ra q db =
      (calculatorRun jobKey ra (fun k => .ok (jobStatRowFor k.1
          (effectiveJobs sd ed q db.jobs) k.2.1 k.2.2))
        (jobKeys r.id db.service_providers) db.jobStats).map
        (fun out => { db with jobStats := out.1 }) := by
  rw [calculate_job_statistics_ok h]
  simp [calculatorRun, h, runKeysE_ok, jobCalcResult]
  rfl

/-- `calculate_order_statistics` is exactly the shared calculator shape
`calculatorRun` with an infallible per-key body. -/
theorem calculate_order_statistics_as_calculatorRun {ra : ReportArg}
    {r : Report} {sd ed : Int} (h : checkReportPre ra = .ok (r, sd, ed))
    (q : Option (List Order)) (db : DbState) :
    calculate_order_statistics ra q db =
      (calculatorRun orderKey ra (fun k => .ok (orderStatRowFor k.1
          (effectiveOrders sd ed q db.orders) k.2))
        (orderKeys r.id db.service_providers) db.orderStats).map
        (fun out => { db with orderStats := out.1 }) := by
  rw [calculate_order_statistics_ok h]
  simp [calculatorRun, h, runKeysE_ok, orderCalcResult]
  rfl

/-- `calculate_user_statistics` is exactly the shared calculator shape
`calculatorRun` with an infallible per-key body. -/
theorem calculate_user_statistics_as_calculatorRun {ra : ReportArg}
    {r : Report} {sd ed : Int} (h : checkReportPre ra = .ok (r, sd, ed))
    (q : Option (List Order)) (db : DbState) :
    calculate_user_statistics ra q db =
      (calculatorRun userKey ra (fun k => .ok (userStatRowFor k.1
          db.customers (effectiveOrders sd ed q db.orders) k.2))
        (userKeys r.id db.account_managers) db.userStats).map
        (fun out => { db with userStats := out.1 }) := by
  rw [calculate_user_statistics_ok h]
  simp [calculatorRun, h, runKeysE_ok, userCalcResult]
  rfl

/-- `calculate_campaign_statistics` is exactly the shared calculator shape
`calculatorRun` with an infallible per-key body. -/
theorem calculate_campaign_statistics_as_calculatorRun {ra : ReportArg}
    {r : Report} {sd ed : Int} (h : checkReportPre ra = .ok (r, sd, ed))
    (q : Option (List Order)) (db : DbState) :
    calculate_campaign_statistics ra q db =
      (calculatorRun campaignKey ra (fun k => .ok (campaignStatRowFor k.1
          (effectiveOrders sd ed q db.orders) k.2))
        (campaignKeys r.id db.campaigns) db.campaignStats).map
        (fun out => { db with campaignStats := out.1 }) := by
  rw [calculate_campaign_statistics_ok h]
  simp [calculatorRun, h, runKeysE_ok, campaignCalcResult]
  rfl

theorem checkReportPre_missing {r : Report}
    (h : r.start_date = none ∨ r.end_date = none) :
    checkReportPre (.reportArg r) = .error .windowIncomplete := by
  rcases h with h | h
  · simp [checkReportPre, h]
  · cases hs : r.start_date <;> simp [checkReportPre, hs, h]

theorem checkReportPre_invalid {r : Report} {sd ed : Int}
    (hs : r.start_date = some sd) (he : r.end_date = some ed)
    (hge : ed ≤ sd) : checkReportPre (.reportArg r) = .error .invalidWindow := by
  simp [checkReportPre, hs, he, hge]

/-- The job-statistics loop body always stamps the key it was called for. -/
theorem jobKey_row (jobs : List Job) (k : Nat × Nat × JobType) :
    jobKey (jobStatRowFor k.1 jobs k.2.1 k.2.2) = k := by
  obtain ⟨a, b, c⟩ := k
  rfl

theorem orderKey_row (orders : List Order) (k : Nat × Nat) :
    orderKey (orderStatRowFor k.1 orders k.2) = k := by
  obtain ⟨a, b⟩ := k
  rfl

theorem userKey_row (customers : List Customer) (orders : List Order)
    (k : Nat × Nat) : userKey (userStatRowFor k.1 customers orders k.2) = k := by
  obtain ⟨a, b⟩ := k
  rfl

theorem campaignKey_row (orders : List Order) (k : Nat × Nat) :
    campaignKey (campaignStatRowFor k.1 orders k.2) = k := by
  obtain ⟨a, b⟩ := k
  rfl

theorem mem_jobTypeChoices (jt : JobType) : jt ∈ jobTypeChoices := by
  cases jt <;> simp [jobTypeChoices]

theorem mem_jobKeys (rid : Nat) {sp : Nat} (jt : JobType)
    {providers : List Nat} (hsp : sp ∈ providers) :
    (rid, sp, jt) ∈ jobKeys rid providers := by
  rw [jobKeys, List.mem_flatMap]
  exact ⟨sp, hsp, List.mem_map.mpr ⟨jt, mem_jobTypeChoices jt, rfl⟩⟩

theorem mem_orderKeys (rid : Nat) {sp : Nat} {providers : List Nat}
    (hsp : sp ∈ providers) : (rid, sp) ∈ orderKeys rid providers :=
  List.mem_map.mpr ⟨sp, hsp, rfl⟩

theorem mem_userKeys (rid : Nat) {am : Nat} {managers : List Nat}
    (ham : am ∈ managers) : (rid, am) ∈ userKeys rid managers :=
  List.mem_map.mpr ⟨am, ham, rfl⟩

theorem mem_campaignKeys (rid : Nat) {c : Nat} {campaigns : List Nat}
    (hc : c ∈ campaigns) : (rid, c) ∈ campaignKeys rid campaigns :=
  List.mem_map.mpr ⟨c, hc, rfl⟩

/-- A key with no matching jobs gets the all-zero row with a null average. -/
theorem jobStatRowFor_zero {rid : Nat} {jobs : List Job} {sp : Nat}
    {jt : JobType}
    (h : jobs.filter (fun j =>
      decide (j.service_provider = some sp ∧ j.job_type = jt)) = []) :
    jobStatRowFor rid jobs sp jt =
      { report := rid, service_provider := sp, job_type := jt,
        total_jobs := 0, completed_jobs := 0, failed_jobs := 0,
        average_completion_time := none } := by
  simp only [jobStatRowFor]
  rw [h]
  rfl

/-- A provider with no matching orders gets the all-zero row. -/
theorem orderStatRowFor_zero {rid : Nat} {orders : List Order} {sp : Nat}
    (h : orders.filter (fun o => decide (sp ∈ o.service_providers)) = []) :
    orderStatRowFor rid orders sp =
      { report := rid, service_provider := sp, total_orders := 0,
        total_revenue := 0, average_order_value := 0,
        completion_rate := 0 } := by
  simp only [orderStatRowFor]
  rw [h]
  rfl

/-- A manager with no customers gets the all-zero row. -/
theorem userStatRowFor_zero {rid : Nat} {customers : List Customer}
    {orders : List Order} {am : Nat}
    (h : customers.filter (fun c => decide (c.account_manager = some am)) = []) :
    userStatRowFor rid customers orders am =
      { report := rid, account_manager := am, total_customers := 0,
        total_orders := 0, total_revenue := 0,
        average_customer_value := 0 } := by
  simp only [userStatRowFor]
  rw [h]
  simp

/-- A campaign with no matching orders gets the all-zero row. -/
theorem campaignStatRowFor_zero {rid : Nat} {orders : List Order} {c : Nat}
    (h : orders.filter (fun o => decide (o.campaign = some c)) = []) :
    campaignStatRowFor rid orders c =
      { report := rid, campaign := c, total_orders := 0,
        completed_orders := 0, cancelled_orders := 0, total_revenue := 0,
        conversion_rate := 0 } := by
  simp only [campaignStatRowFor]
  rw [h]
  rfl

theorem checkReportPre_noneArg :
    checkReportPre .noneArg = .error .reportRequired := rfl

theorem checkReportPre_wrongType (ty : String) :
    checkReportPre (.wrongType ty) = .error (.wrongReportType ty) := rfl

/-- Inverting a successful job-calculator run: the window was valid and the
result is exactly the committed upsert batch. -/
theorem calculate_job_statistics_ok_inv {r : Report} {sd ed : Int}
    {q : Option (List Job)} {db db' : DbState}
    (hs : r.start_date = some sd) (he : r.end_date = some ed)
    (hok : calculate_job_statistics (.reportArg r) q db = .ok db') :
    sd < ed ∧ db' = jobCalcResult r.id (effectiveJobs sd ed q db.jobs) db := by
  by_cases hlt : sd < ed
  · rw [calculate_job_statistics_ok (checkReportPre_ok hs he hlt) q db]
      at hok
    exact ⟨hlt, (Except.ok.inj hok).symm⟩
  · rw [calculate_job_statistics_err
      (checkReportPre_invalid hs he (not_lt.mp hlt)) q db] at hok
    cases hok

theorem calculate_order_statistics_ok_inv {r : Report} {sd ed : Int}
    {q : Option (List Order)} {db db' : DbState}
    (hs : r.start_date = some sd) (he : r.end_date = some ed)
    (hok : calculate_order_statistics (.reportArg r) q db = .ok db') :
    sd < ed ∧
      db' = orderCalcResult r.id (effectiveOrders sd ed q db.orders) db := by
  by_cases hlt : sd < ed
  · rw [calculate_order_statistics_ok (checkReportPre_ok hs he hlt) q db]
      at hok
    exact ⟨hlt, (Except.ok.inj hok).symm⟩
  · rw [calculate_order_statistics_err
      (checkReportPre_invalid hs he (not_lt.mp hlt)) q db] at hok
    cases hok

theorem calculate_user_statistics_ok_inv {r : Report} {sd ed : Int}
    {q : Option (List Order)} {db db' : DbState}
    (hs : r.start_date = some sd) (he : r.end_date = some ed)
    (hok : calculate_user_statistics (.reportArg r) q db = .ok db') :
    sd < ed ∧
      db' = userCalcResult r.id (effectiveOrders sd ed q db.orders) db := by
  by_cases hlt : sd < ed
  · rw [calculate_user_statistics_ok (checkReportPre_ok hs he hlt) q db]
      at hok
    exact ⟨hlt, (Except.ok.inj hok).symm⟩
  · rw [calculate_user_statistics_err
      (checkReportPre_invalid hs he (not_lt.mp hlt)) q db] at hok
    cases hok

theorem calculate_campaign_statistics_ok_inv {r : Report} {sd ed : Int}
    {q : Option (List Order)} {db db' : DbState}
    (hs : r.start_date = some sd) (he : r.end_date = some ed)
    (hok : calculate_campaign_statistics (.reportArg r) q db = .ok db') :
    sd < ed ∧
      db' = campaignCalcResult r.id (effectiveOrders sd ed q db.orders) db := by
  by_cases hlt : sd < ed
  · rw [calculate_campaign_statistics_ok (checkReportPre_ok hs he hlt) q db]
      at hok
    exact ⟨hlt, (Except.ok.inj hok).symm⟩
  · rw [calculate_campaign_statistics_err
      (checkReportPre_invalid hs he (not_lt.mp hlt)) q db] at hok
    cases hok

/-- **C7** — Shared calculator preconditions: for each of the four
`calculate_*_statistics` entry points, a null report yields the
ReportRequired error, a non-`Report` value the WrongReportType error, a
report missing either window endpoint the WindowIncomplete error, and
`start_date ≥ end_date` (equality included) the InvalidWindow error.  Each
failing call returns the error alone — no `DbState` is produced — so the
failure precedes any aggregation or database write and aborts the entire
calculator call, not just one dimension key. -/
theorem C7_shared_calculator_preconditions :
    (∀ q db, calculate_job_statistics .noneArg q db =
      .error .reportRequired) ∧
    (∀ q db, calculate_order_statistics .noneArg q db =
      .error .reportRequired) ∧
    (∀ q db, calculate_user_statistics .noneArg q db =
      .error .reportRequired) ∧
    (∀ q db, calculate_campaign_statistics .noneArg q db =
      .error .reportRequired) ∧
    (∀ ty q db, calculate_job_statistics (.wrongType ty) q db =
      .error (.wrongReportType ty)) ∧
    (∀ ty q db, calculate_order_statistics (.wrongType ty) q db =
      .error (.wrongReportType ty)) ∧
    (∀ ty q db, calculate_user_statistics (.wrongType ty) q db =
      .error (.wrongReportType ty)) ∧
    (∀ ty q db, calculate_campaign_statistics (.wrongType ty) q db =
      .error (.wrongReportType ty)) ∧
    (∀ r q db, (r.start_date = none ∨ r.end_date = none) →
      calculate_job_statistics (.reportArg r) q db =
        .error .windowIncomplete) ∧
    (∀ r q db, (r.start_date = none ∨ r.end_date = none) →
      calculate_order_statistics (.reportArg r) q db =
        .error .windowIncomplete) ∧
    (∀ r q db, (r.start_date = none ∨ r.end_date = none) →
      calculate_user_statistics (.reportArg r) q db =
        .error .windowIncomplete) ∧
    (∀ r q db, (r.start_date = none ∨ r.end_date = none) →
      calculate_campaign_statistics (.reportArg r) q db =
        .error .windowIncomplete) ∧
    (∀ r sd ed q db, r.start_date = some sd → r.end_date = some ed →
      ed ≤ sd →
      calculate_job_statistics (.reportArg r) q db =
        .error .invalidWindow) ∧
    (∀ r sd ed q db, r.start_date = some sd → r.end_date = some ed →
      ed ≤ sd →
      calculate_order_statistics (.reportArg r) q db =
        .error .invalidWindow) ∧
    (∀ r sd ed q db, r.start_date = some sd → r.end_date = some ed →
      ed ≤ sd →
      calculate_user_statistics (.reportArg r) q db =
        .error .invalidWindow) ∧
    (∀ r sd ed q db, r.start_date = some sd → r.end_date = some ed →
      ed ≤ sd →
      calculate_campaign_statistics (.reportArg r) q db =
        .error .invalidWindow) := by
  refine ⟨fun q db => calculate_job_statistics_err checkReportPre_noneArg q db,
    fun q db => calculate_order_statistics_err checkReportPre_noneArg q db,
    fun q db => calculate_user_statistics_err checkReportPre_noneArg q db,
    fun q db =>
      calculate_campaign_statistics_err checkReportPre_noneArg q db,
    fun ty q db =>
      calculate_job_statistics_err (checkReportPre_wrongType ty) q db,
    fun ty q db =>
      calculate_order_statistics_err (checkReportPre_wrongType ty) q db,
    fun ty q db =>
      calculate_user_statistics_err (checkReportPre_wrongType ty) q db,
    fun ty q db =>
      calculate_campaign_statistics_err (checkReportPre_wrongType ty) q db,
    fun r q db h =>
      calculate_job_statistics_err (checkReportPre_missing h) q db,
    fun r q db h =>
      calculate_order_statistics_err (checkReportPre_missing h) q db,
    fun r q db h =>
      calculate_user_statistics_err (checkReportPre_missing h) q db,
    fun r q db h =>
      calculate_campaign_statistics_err (checkReportPre_missing h) q db,
    fun r sd ed q db hs he hge =>
      calculate_job_statistics_err (checkReportPre_invalid hs he hge) q db,
    fun r sd ed q db hs he hge =>
      calculate_order_statistics_err (checkReportPre_invalid hs he hge) q db,
    fun r sd ed q db hs he hge =>
      calculate_user_statistics_err (checkReportPre_invalid hs he hge) q db,
    fun r sd ed q db hs he hge =>
      calculate_campaign_statistics_err (checkReportPre_invalid hs he hge)
        q db⟩

/-- **C5** — Job-statistics postcondition: for every
`(service_provider, job_type)` key, `total_jobs` counts the jobs matching
the key in the filtered set, `completed_jobs` those with status COMPLETED,
`failed_jobs` those with status FAILED, and `average_completion_time` is
the arithmetic mean of `completed_at − started_at` over jobs that are
COMPLETED with both timestamps set — and is null (not zero) exactly when
that subset is empty. -/
theorem C5_job_statistics_postcondition (rid : Nat) (jobs : List Job)
    (sp : Nat) (jt : JobType) :
    (jobStatRowFor rid jobs sp jt).total_jobs =
      jobs.countP (fun j =>
        decide (j.service_provider = some sp ∧ j.job_type = jt)) ∧
    (jobStatRowFor rid jobs sp jt).completed_jobs =
      jobs.countP (fun j =>
        decide ((j.service_provider = some sp ∧ j.job_type = jt) ∧
          j.status = .completed)) ∧
    (jobStatRowFor rid jobs sp jt).failed_jobs =
      jobs.countP (fun j =>
        decide ((j.service_provider = some sp ∧ j.job_type = jt) ∧
          j.status = .failed)) ∧
    (completedTimedOf jobs sp jt = [] →
      (jobStatRowFor rid jobs sp jt).average_completion_time = none) ∧
    (completedTimedOf jobs sp jt ≠ [] →
      (jobStatRowFor rid jobs sp jt).average_completion_time =
        some (meanDuration (completedTimedOf jobs sp jt))) := by
  have hct : (jobs.filter (fun j =>
      decide (j.service_provider = some sp ∧ j.job_type = jt))).filter
        (fun j => decide (j.status = JobStatus.completed ∧
          j.started_at ≠ none ∧ j.completed_at ≠ none)) =
      completedTimedOf jobs sp jt := by
    rw [completedTimedOf, List.filter_filter]
    refine List.filter_congr ?_
    intro j _
    by_cases h1 : j.service_provider = some sp ∧ j.job_type = jt <;>
      by_cases h2 : j.status = JobStatus.completed ∧ j.started_at ≠ none ∧
        j.completed_at ≠ none <;>
      simp [h1, h2]
  refine ⟨?_, ?_, ?_, ?_, ?_⟩
  · simp [jobStatRowFor, List.countP_eq_length_filter]
  · simp only [jobStatRowFor]
    rw [List.countP_eq_length_filter, List.filter_filter]
    congr 1
    refine List.filter_congr ?_
    intro j _
    by_cases h1 : j.service_provider = some sp ∧ j.job_type = jt <;>
      by_cases h2 : j.status = JobStatus.completed <;> simp [h1, h2]
  · simp only [jobStatRowFor]
    rw [List.countP_eq_length_filter, List.filter_filter]
    congr 1
    refine List.filter_congr ?_
    intro j _
    by_cases h1 : j.service_provider = some sp ∧ j.job_type = jt <;>
      by_cases h2 : j.status = JobStatus.failed <;> simp [h1, h2]
  · intro h
    simp only [jobStatRowFor]
    rw [hct, if_pos h]
  · intro h
    simp only [jobStatRowFor]
    rw [hct, if_neg h]
    rfl

/-- **C6** — Order-statistics postcondition: for every provider,
`total_orders` is the de-duplicated count of orders any of whose line items
touch the provider; `total_revenue` sums `total_amount` over that set's
COMPLETED orders; `average_order_value` is revenue over the COMPLETED count
when it is positive and `0` otherwise; and `completion_rate` is
`100 × completed / total` when the total is positive and `0` otherwise —
with no division-by-zero error possible in either guard. -/
theorem C6_order_statistics_postcondition (rid : Nat) (orders : List Order)
    (sp : Nat) :
    (orderStatRowFor rid orders sp).total_orders =
      orders.countP (fun o => decide (sp ∈ o.service_providers)) ∧
    (orderStatRowFor rid orders sp).total_revenue =
      ((completedProviderOrders orders sp).map
        (fun o => o.total_amount)).sum ∧
    (0 < (completedProviderOrders orders sp).length →
      (orderStatRowFor rid orders sp).average_order_value =
        (orderStatRowFor rid orders sp).total_revenue /
          ((completedProviderOrders orders sp).length : ℚ)) ∧
    ((completedProviderOrders orders sp).length = 0 →
      (orderStatRowFor rid orders sp).average_order_value = 0) ∧
    (0 < (orderStatRowFor rid orders sp).total_orders →
      (orderStatRowFor rid orders sp).completion_rate =
        100 * ((completedProviderOrders orders sp).length : ℚ) /
          ((orderStatRowFor rid orders sp).total_orders : ℚ)) ∧
    ((orderStatRowFor rid orders sp).total_orders = 0 →
      (orderStatRowFor rid orders sp).completion_rate = 0) := by
  have hco : (orders.filter
      (fun o => decide (sp ∈ o.service_providers))).filter
        (fun o => decide (o.status = OrderStatus.completed)) =
      completedProviderOrders orders sp := by
    rw [completedProviderOrders, List.filter_filter]
    refine List.filter_congr ?_
    intro o _
    by_cases h1 : sp ∈ o.service_providers <;>
      by_cases h2 : o.status = OrderStatus.completed <;> simp [h1, h2]
  refine ⟨?_, ?_, ?_, ?_, ?_, ?_⟩
  · simp [orderStatRowFor, List.countP_eq_length_filter]
  · simp only [orderStatRowFor]
    rw [hco]
  · intro h
    simp only [orderStatRowFor]
    rw [hco, if_pos h]
  · intro h
    simp only [orderStatRowFor]
    rw [hco, h]
    simp
  · intro h
    simp only [orderStatRowFor] at h ⊢
    rw [hco, if_pos h]
    ring
  · intro h
    simp only [orderStatRowFor] at h ⊢
    rw [h]
    simp

/-- **C4** — Zero-key totality: every successful calculator run stores one
aggregate row for every value of its dimension key — every
ServiceProvider × job_type combination, every ServiceProvider, every
AccountManager, every Campaign — and a key with zero matching records in
range gets a stored row with zero counts (and a null average for job
statistics) rather than no row. -/
theorem C4_zero_key_totality :
    (∀ (r : Report) (sd ed : Int) q db db', r.start_date = some sd →
      r.end_date = some ed →
      calculate_job_statistics (.reportArg r) q db = .ok db' →
      ∀ sp ∈ db.service_providers, ∀ jt : JobType,
        jobStatRowFor r.id (effectiveJobs sd ed q db.jobs) sp jt ∈
          db'.jobStats ∧
        ((effectiveJobs sd ed q db.jobs).filter (fun j =>
            decide (j.service_provider = some sp ∧ j.job_type = jt)) = [] →
          jobStatRowFor r.id (effectiveJobs sd ed q db.jobs) sp jt =
            { report := r.id, service_provider := sp, job_type := jt,
              total_jobs := 0, completed_jobs := 0, failed_jobs := 0,
              average_completion_time := none })) ∧
    (∀ (r : Report) (sd ed : Int) q db db', r.start_date = some sd →
      r.end_date = some ed →
      calculate_order_statistics (.reportArg r) q db = .ok db' →
      ∀ sp ∈ db.service_providers,
        orderStatRowFor r.id (effectiveOrders sd ed q db.orders) sp ∈
          db'.orderStats ∧
        ((effectiveOrders sd ed q db.orders).filter (fun o =>
            decide (sp ∈ o.service_providers)) = [] →
          orderStatRowFor r.id (effectiveOrders sd ed q db.orders) sp =
            { report := r.id, service_provider := sp, total_orders := 0,
              total_revenue := 0, average_order_value := 0,
              completion_rate := 0 })) ∧
    (∀ (r : Report) (sd ed : Int) q db db', r.start_date = some sd →
      r.end_date = some ed →
      calculate_user_statistics (.reportArg r) q db = .ok db' →
      ∀ am ∈ db.account_managers,
        userStatRowFor r.id db.customers
          (effectiveOrders sd ed q db.orders) am ∈ db'.userStats ∧
        (db.customers.filter (fun c =>
            decide (c.account_manager = some am)) = [] →
          userStatRowFor r.id db.customers
            (effectiveOrders sd ed q db.orders) am =
            { report := r.id, account_manager := am, total_customers := 0,
              total_orders := 0, total_revenue := 0,
              average_customer_value := 0 })) ∧
    (∀ (r : Report) (sd ed : Int) q db db', r.start_date = some sd →
      r.end_date = some ed →
      calculate_campaign_statistics (.reportArg r) q db = .ok db' →
      ∀ c ∈ db.campaigns,
        campaignStatRowFor r.id (effectiveOrders sd ed q db.orders) c ∈
          db'.campaignStats ∧
        ((effectiveOrders sd ed q db.orders).filter (fun o =>
            decide (o.campaign = some c)) = [] →
          campaignStatRowFor r.id (effectiveOrders sd ed q db.orders) c =
            { report := r.id, campaign := c, total_orders := 0,
              completed_orders := 0, cancelled_orders := 0,
              total_revenue := 0, conversion_rate := 0 })) := by
  refine ⟨?_, ?_, ?_, ?_⟩
  · intro r sd ed q db db' hs he hok sp hsp jt
    obtain ⟨hlt, rfl⟩ := calculate_job_statistics_ok_inv hs he hok
    refine ⟨?_, fun h => jobStatRowFor_zero h⟩
    exact runKeys_mem jobKey (fun k _ => jobKey_row _ k)
      (mem_jobKeys r.id jt hsp) db.jobStats
  · intro r sd ed q db db' hs he hok sp hsp
    obtain ⟨hlt, rfl⟩ := calculate_order_statistics_ok_inv hs he hok
    refine ⟨?_, fun h => orderStatRowFor_zero h⟩
    exact runKeys_mem orderKey (fun k _ => orderKey_row _ k)
      (mem_orderKeys r.id hsp) db.orderStats
  · intro r sd ed q db db' hs he hok am ham
    obtain ⟨hlt, rfl⟩ := calculate_user_statistics_ok_inv hs he hok
    refine ⟨?_, fun h => userStatRowFor_zero h⟩
    exact runKeys_mem userKey (fun k _ => userKey_row _ _ k)
      (mem_userKeys r.id ham) db.userStats
  · intro r sd ed q db db' hs he hok c hc
    obtain ⟨hlt, rfl⟩ := calculate_campaign_statistics_ok_inv hs he hok
    refine ⟨?_, fun h => campaignStatRowFor_zero h⟩
    exact runKeys_mem campaignKey (fun k _ => campaignKey_row _ k)
      (mem_campaignKeys r.id hc) db.campaignStats

/-- **C2** — Idempotence over unchanged data: for every calculator, running
it twice on the same report and the same underlying records leaves the
second run's state identical to the first run's (the calculator is a fixed
point on its own output), and the first run stores exactly one row per
`(report, dimension-key)` — never a duplicate — given that the report had
no statistics rows yet (the `unique_together` constraints of
`stat_analysis/models.py` guarantee this key-uniqueness invariant in the
database). -/
theorem C2_calculator_idempotence :
    (∀ (r : Report) (sd ed : Int) q db db₁, r.start_date = some sd →
      r.end_date = some ed →
      (∀ x ∈ db.jobStats, x.report ≠ r.id) →
      calculate_job_statistics (.reportArg r) q db = .ok db₁ →
      calculate_job_statistics (.reportArg r) q db₁ = .ok db₁ ∧
      ∀ sp ∈ db.service_providers, ∀ jt : JobType,
        (db₁.jobStats.filter (fun x =>
          decide (jobKey x = (r.id, sp, jt)))).length = 1) ∧
    (∀ (r : Report) (sd ed : Int) q db db₁, r.start_date = some sd →
      r.end_date = some ed →
      (∀ x ∈ db.orderStats, x.report ≠ r.id) →
      calculate_order_statistics (.reportArg r) q db = .ok db₁ →
      calculate_order_statistics (.reportArg r) q db₁ = .ok db₁ ∧
      ∀ sp ∈ db.service_providers,
        (db₁.orderStats.filter (fun x =>
          decide (orderKey x = (r.id, sp)))).length = 1) ∧
    (∀ (r : Report) (sd ed : Int) q db db₁, r.start_date = some sd →
      r.end_date = some ed →
      (∀ x ∈ db.userStats, x.report ≠ r.id) →
      calculate_user_statistics (.reportArg r) q db = .ok db₁ →
      calculate_user_statistics (.reportArg r) q db₁ = .ok db₁ ∧
      ∀ am ∈ db.account_managers,
        (db₁.userStats.filter (fun x =>
          decide (userKey x = (r.id, am)))).length = 1) ∧
    (∀ (r : Report) (sd ed : Int) q db db₁, r.start_date = some sd →
      r.end_date = some ed →
      (∀ x ∈ db.campaignStats, x.report ≠ r.id) →
      calculate_campaign_statistics (.reportArg r) q db = .ok db₁ →
      calculate_campaign_statistics (.reportArg r) q db₁ = .ok db₁ ∧
      ∀ c ∈ db.campaigns,
        (db₁.campaignStats.filter (fun x =>
          decide (campaignKey x = (r.id, c)))).length = 1) := by
  refine ⟨?_, ?_, ?_, ?_⟩
  · intro r sd ed q db db₁ hs he hfresh hok
    obtain ⟨hlt, rfl⟩ := calculate_job_statistics_ok_inv hs he hok
    constructor
    · rw [calculate_job_statistics_ok (checkReportPre_ok hs he hlt) q _]
      congr 1
      simp only [jobCalcResult]
      rw [runKeys_idem jobKey (fun k _ => jobKey_row _ k) db.jobStats]
    · intro sp hsp jt
      have hzero : db.jobStats.filter (fun x =>
          decide (jobKey x = (r.id, sp, jt))) = [] :=
        List.filter_eq_nil_iff.mpr (fun x hx hd =>
          hfresh x hx (congrArg Prod.fst (of_decide_eq_true hd)))
      simp only [jobCalcResult]
      rw [runKeys_filter_eq jobKey (fun k _ => jobKey_row _ k)
        (mem_jobKeys r.id jt hsp) db.jobStats
        (Or.inl hzero)]
      rfl
  · intro r sd ed q db db₁ hs he hfresh hok
    obtain ⟨hlt, rfl⟩ := calculate_order_statistics_ok_inv hs he hok
    constructor
    · rw [calculate_order_statistics_ok (checkReportPre_ok hs he hlt) q _]
      congr 1
      simp only [orderCalcResult]
      rw [runKeys_idem orderKey (fun k _ => orderKey_row _ k) db.orderStats]
    · intro sp hsp
      have hzero : db.orderStats.filter (fun x =>
          decide (orderKey x = (r.id, sp))) = [] :=
        List.filter_eq_nil_iff.mpr (fun x hx hd =>
          hfresh x hx (congrArg Prod.fst (of_decide_eq_true hd)))
      simp only [orderCalcResult]
      rw [runKeys_filter_eq orderKey (fun k _ => orderKey_row _ k)
        (mem_orderKeys r.id hsp) db.orderStats (Or.inl hzero)]
      rfl
  · intro r sd ed q db db₁ hs he hfresh hok
    obtain ⟨hlt, rfl⟩ := calculate_user_statistics_ok_inv hs he hok
    constructor
    · rw [calculate_user_statistics_ok (checkReportPre_ok hs he hlt) q _]
      congr 1
      simp only [userCalcResult]
      rw [runKeys_idem userKey (fun k _ => userKey_row _ _ k) db.userStats]
    · intro am ham
      have hzero : db.userStats.filter (fun x =>
          decide (userKey x = (r.id, am))) = [] :=
        List.filter_eq_nil_iff.mpr (fun x hx hd =>
          hfresh x hx (congrArg Prod.fst (of_decide_eq_true hd)))
      simp only [userCalcResult]
      rw [runKeys_filter_eq userKey (fun k _ => userKey_row _ _ k)
        (mem_userKeys r.id ham) db.userStats (Or.inl hzero)]
      rfl
  · intro r sd ed q db db₁ hs he hfresh hok
    obtain ⟨hlt, rfl⟩ := calculate_campaign_statistics_ok_inv hs he hok
    constructor
    · rw [calculate_campaign_statistics_ok (checkReportPre_ok hs he hlt) q _]
      congr 1
      simp only [campaignCalcResult]
      rw [runKeys_idem campaignKey (fun k _ => campaignKey_row _ k)
        db.campaignStats]
    · intro c hc
      have hzero : db.campaignStats.filter (fun x =>
          decide (campaignKey x = (r.id, c))) = [] :=
        List.filter_eq_nil_iff.mpr (fun x hx hd =>
          hfresh x hx (congrArg Prod.fst (of_decide_eq_true hd)))
      simp only [campaignCalcResult]
      rw [runKeys_filter_eq campaignKey (fun k _ => campaignKey_row _ k)
        (mem_campaignKeys r.id hc) db.campaignStats
        (Or.inl hzero)]
      rfl

theorem except_bind_ok {α β ε : Type} (a : α) (f : α → Except ε β) :
    (Except.ok a >>= f) = f a := rfl

theorem except_bind_error {α β ε : Type} (e : ε) (f : α → Except ε β) :
    ((Except.error e : Except ε α) >>= f) = Except.error e := rfl

theorem except_mapError_ok {α ε ε' : Type} (a : α) (f : ε → ε') :
    (Except.ok a : Except ε α).mapError f = .ok a := rfl

theorem except_mapError_error {α ε ε' : Type} (e : ε) (f : ε → ε') :
    (Except.error e : Except ε α).mapError f = .error (f e) := rfl

/-- A successful job-statistics run writes only the job-statistics table. -/
theorem calculate_job_statistics_campaign_frame {ra : ReportArg}
    {q : Option (List Job)} {db db' : DbState}
    (h : calculate_job_statistics ra q db = .ok db') :
    db'.campaignStats = db.campaignStats := by
  cases hc : checkReportPre ra with
  | error e => rw [calculate_job_statistics_err hc] at h; cases h
  | ok ctx =>
    obtain ⟨r, sd, ed⟩ := ctx
    rw [calculate_job_statistics_ok hc] at h
    rw [← Except.ok.inj h]
    rfl

/-- A successful order-statistics run writes only the order-statistics
table. -/
theorem calculate_order_statistics_campaign_frame {ra : ReportArg}
    {q : Option (List Order)} {db db' : DbState}
    (h : calculate_order_statistics ra q db = .ok db') :
    db'.campaignStats = db.campaignStats := by
  cases hc : checkReportPre ra with
  | error e => rw [calculate_order_statistics_err hc] at h; cases h
  | ok ctx =>
    obtain ⟨r, sd, ed⟩ := ctx
    rw [calculate_order_statistics_ok hc] at h
    rw [← Except.ok.inj h]
    rfl

/-- A successful user-statistics run writes only the user-statistics
table. -/
theorem calculate_user_statistics_campaign_frame {ra : ReportArg}
    {q : Option (List Order)} {db db' : DbState}
    (h : calculate_user_statistics ra q db = .ok db') :
    db'.campaignStats = db.campaignStats := by
  cases hc : checkReportPre ra with
  | error e => rw [calculate_user_statistics_err hc] at h; cases h
  | ok ctx =>
    obtain ⟨r, sd, ed⟩ := ctx
    rw [calculate_user_statistics_ok hc] at h
    rw [← Except.ok.inj h]
    rfl

/-- Both branches of the save hook run the same three calculators in
sequence. -/
theorem calculate_report_statistics_eq (inst : ReportArg) (created : Bool)
    (db : DbState) :
    calculate_report_statistics inst created db =
      (calculate_job_statistics inst none db >>= fun s1 =>
        calculate_order_statistics inst none s1 >>= fun s2 =>
        calculate_user_statistics inst none s2) := by
  cases created <;> rfl

/-- **C3** — Per-key failure isolation: in the calculators' shared loop
shape (`calculatorRun`: precondition ladder, then the per-key `try/except`
loop), whenever the report preconditions hold, the run returns normally
even if some keys' bodies raise; each failing key's error is logged and its
rows are exactly what they were before the run (the key is skipped); every
key whose body succeeds still gets its row stored.  Each concrete
`calculate_*_statistics` is this shape with an infallible body
(`runKeysE_ok`). -/
theorem C3_per_key_failure_isolation {R K : Type} [DecidableEq K]
    (key : R → K) (ra : ReportArg) (compute : K → Except String R)
    (ks : List K) (tbl : List R) (ctx : Report × Int × Int)
    (hpre : checkReportPre ra = .ok ctx)
    (hk : ∀ k ∈ ks, ∀ row, compute k = .ok row → key row = k) :
    ∃ out, calculatorRun key ra compute ks tbl = .ok out ∧
      (∀ k ∈ ks, ∀ e, compute k = .error e →
        e ∈ out.2 ∧
        out.1.filter (fun x => decide (key x = k)) =
          tbl.filter (fun x => decide (key x = k))) ∧
      (∀ k ∈ ks, ∀ row, compute k = .ok row → row ∈ out.1) := by
  refine ⟨runKeysE key compute ks (tbl, []), ?_, ?_, ?_⟩
  · simp [calculatorRun, hpre]
  · intro k hkmem e he
    exact ⟨runKeysE_err_logged key hkmem he _,
      runKeysE_err_frame key hk he _⟩
  · intro k hkmem row hok
    exact runKeysE_ok_mem key hk hkmem hok _

/-- Witness for C3 at a concrete run: key `1` of three fails, the other two
succeed; the run returns normally, logs the error, skips key `1` and stores
rows for keys `0` and `2`. -/
theorem C3_per_key_failure_isolation_witness :
    ∃ out, calculatorRun (fun n : Nat => n) (.reportArg sampleReport)
        (fun k => if k = 1 then .error "boom" else .ok k) [0, 1, 2] [] =
        .ok out ∧
      (∀ k ∈ [0, 1, 2], ∀ e,
        (if k = 1 then (.error "boom" : Except String Nat) else .ok k) =
          .error e →
        e ∈ out.2 ∧
        out.1.filter (fun x => decide (x = k)) =
          ([] : List Nat).filter (fun x => decide (x = k))) ∧
      (∀ k ∈ [0, 1, 2], ∀ row,
        (if k = 1 then (.error "boom" : Except String Nat) else .ok k) =
          .ok row → row ∈ out.1) := by
  refine C3_per_key_failure_isolation (fun n : Nat => n)
    (.reportArg sampleReport)
    (fun k => if k = 1 then .error "boom" else .ok k) [0, 1, 2] []
    (sampleReport, 0, 10) rfl ?_
  intro k hkmem row h
  have h' : (if k = 1 then (.error "boom" : Except String Nat) else .ok k) =
      .ok row := h
  by_cases hk1 : k = 1
  · rw [if_pos hk1] at h'
    cases h'
  · rw [if_neg hk1] at h'
    exact (Except.ok.inj h').symm

/-- **C10** — Implicit frame effect of the save hook: every save of a
`Report` (created or updated) makes the `post_save` receiver recalculate
job, order and user statistics for that report, but it never invokes the
campaign-statistics calculator: on success the campaign-statistics table is
exactly what it was before the save. -/
theorem C10_report_save_hook_frame (inst : ReportArg) (created : Bool)
    (db db' : DbState)
    (hok : calculate_report_statistics inst created db = .ok db') :
    db'.campaignStats = db.campaignStats ∧
    ∃ s1 s2, calculate_job_statistics inst none db = .ok s1 ∧
      calculate_order_statistics inst none s1 = .ok s2 ∧
      calculate_user_statistics inst none s2 = .ok db' := by
  rw [calculate_report_statistics_eq] at hok
  cases h1 : calculate_job_statistics inst none db with
  | error e =>
    rw [h1, except_bind_error] at hok
    cases hok
  | ok s1 =>
    rw [h1, except_bind_ok] at hok
    cases h2 : calculate_order_statistics inst none s1 with
    | error e =>
      rw [h2, except_bind_error] at hok
      cases hok
    | ok s2 =>
      rw [h2, except_bind_ok] at hok
      refine ⟨?_, s1, s2, rfl, h2, hok⟩
      calc db'.campaignStats
          = s2.campaignStats := calculate_user_statistics_campaign_frame hok
        _ = s1.campaignStats := calculate_order_statistics_campaign_frame h2
        _ = db.campaignStats := calculate_job_statistics_campaign_frame h1

/-- Witness for C10 at a concrete save: on `sampleDb0` (no providers or
managers to iterate, one stored campaign row) the hook succeeds and leaves
the campaign-statistics table untouched. -/
theorem C10_report_save_hook_frame_witness :
    sampleDb0.campaignStats = sampleDb0.campaignStats ∧
    ∃ s1 s2,
      calculate_job_statistics (.reportArg sampleReport) none sampleDb0 =
        .ok s1 ∧
      calculate_order_statistics (.reportArg sampleReport) none s1 =
        .ok s2 ∧
      calculate_user_statistics (.reportArg sampleReport) none s2 =
        .ok sampleDb0 :=
  C10_report_save_hook_frame (.reportArg sampleReport) true sampleDb0
    sampleDb0 rfl

/-- **C9 counterexample** — The claim says the default record set is the
half-open window `[start, end)`, so a record created exactly at
`report.end` would be excluded.  The code filters with
`created_at__gte=start, created_at__lte=end` (both inclusive): `cxJob`,
created exactly at the end timestamp `10` of `sampleReport`'s window, is a
member of the default set, and the job calculator counts it
(`total_jobs = 1`, `failed_jobs = 1`), refuting the claim at this input. -/
theorem C9_counterexample :
    cxJob.created_at = 10 ∧ sampleReport.end_date = some 10 ∧
    cxJob ∈ jobsInWindow 0 10 [cxJob] ∧
    ¬ (∀ j ∈ jobsInWindow 0 10 [cxJob], j.created_at < 10) ∧
    ∃ db', calculate_job_statistics (.reportArg sampleReport) none cxDb =
        .ok db' ∧
      cxRow ∈ db'.jobStats := by
  refine ⟨rfl, rfl, by decide, by decide, _, rfl, by decide⟩

/-- **C9 (amended)** — The reporting window is inclusive on both ends: when
no pre-filtered record set is supplied, the default record set contains
exactly the records with `start ≤ created_at ≤ end` — a record created
exactly at `report.end` is included — and a calculator run with no queryset
equals the run on that explicitly filtered set. -/
theorem C9_amended_window_closed :
    (∀ (sd ed : Int) (jobs : List Job) (j : Job),
      j ∈ jobsInWindow sd ed jobs ↔
        j ∈ jobs ∧ sd ≤ j.created_at ∧ j.created_at ≤ ed) ∧
    (∀ (sd ed : Int) (orders : List Order) (o : Order),
      o ∈ ordersInWindow sd ed orders ↔
        o ∈ orders ∧ sd ≤ o.created_at ∧ o.created_at ≤ ed) ∧
    (∀ (r : Report) (sd ed : Int) (db : DbState), r.start_date = some sd →
      r.end_date = some ed →
      calculate_job_statistics (.reportArg r) none db =
        calculate_job_statistics (.reportArg r)
          (some (jobsInWindow sd ed db.jobs)) db) := by
  refine ⟨?_, ?_, ?_⟩
  · intro sd ed jobs j
    simp [jobsInWindow, List.mem_filter, and_assoc]
  · intro sd ed orders o
    simp [ordersInWindow, List.mem_filter, and_assoc]
  · intro r sd ed db hs he
    by_cases hlt : sd < ed
    · rw [calculate_job_statistics_ok (checkReportPre_ok hs he hlt),
        calculate_job_statistics_ok (checkReportPre_ok hs he hlt)]
      rfl
    · rw [calculate_job_statistics_err
        (checkReportPre_invalid hs he (not_lt.mp hlt)),
        calculate_job_statistics_err
        (checkReportPre_invalid hs he (not_lt.mp hlt))]

/-- With a valid window and no injected fault the transaction body commits
the created report, the four upsert batches and the COMPLETED status. -/
theorem generateReportBody_none_ok (title description : String)
    (sd ed : Int) (uid : Nat) (db : DbState) (hlt : sd < ed) :
    generateReportBody title description sd ed uid none db =
      .ok (genSuccessState title description sd ed uid db,
        completedReport title description sd ed uid db) := by
  have hpre : checkReportPre (.reportArg
      (createdReport title description sd ed uid db)) =
      .ok (createdReport title description sd ed uid db, sd, ed) :=
    checkReportPre_ok rfl rfl hlt
  simp only [generateReportBody, genSuccessState,
    calculate_job_statistics_ok hpre, calculate_order_statistics_ok hpre,
    calculate_user_statistics_ok hpre, calculate_campaign_statistics_ok hpre,
    except_mapError_ok, except_bind_ok]
  rfl

/-- **C1** — `generate_report` is all-or-nothing.  The validation ladder
(empty title or description; missing start or end; `start ≥ end`; missing
or invalid creator) raises a ValidationFailure with the original state
untouched, so no record — in particular no Report row — is ever created
(conjuncts 1–6, mirroring the order the source checks the preconditions).
Every raising call, including an unexpected error injected into the
transaction body, leaves the caller's state exactly as it was
(conjunct 7: `transaction.atomic` rollback).  On success the Report row,
all four families of statistics rows and the COMPLETED status are committed
together in the returned state (conjunct 8). -/
theorem C1_generate_report_atomicity :
    (∀ t d sde ede c f db, (t = "" ∨ d = "") →
      generate_report t d sde ede c f db =
        (db, .error (.validationFailure
          "Title and description are required"))) ∧
    (∀ t d ede c f db, t ≠ "" → d ≠ "" →
      generate_report t d none ede c f db =
        (db, .error (.validationFailure
          "Start date and end date are required"))) ∧
    (∀ t d sde c f db, t ≠ "" → d ≠ "" →
      generate_report t d sde none c f db =
        (db, .error (.validationFailure
          "Start date and end date are required"))) ∧
    (∀ t d sd ed c f db, t ≠ "" → d ≠ "" → ed ≤ sd →
      generate_report t d (some sd) (some ed) c f db =
        (db, .error (.validationFailure
          "Start date must be before end date"))) ∧
    (∀ t d sd ed f db, t ≠ "" → d ≠ "" → sd < ed →
      generate_report t d (some sd) (some ed) .noneArg f db =
        (db, .error (.validationFailure
          "Valid created by user or manager instance is required"))) ∧
    (∀ t d sd ed f db, t ≠ "" → d ≠ "" → sd < ed →
      generate_report t d (some sd) (some ed) .notAModel f db =
        (db, .error (.validationFailure
          "Valid created by user or manager instance is required"))) ∧
    (∀ t d sde ede c f db e,
      (generate_report t d sde ede c f db).2 = .error e →
      (generate_report t d sde ede c f db).1 = db) ∧
    (∀ t d sd ed uid db, t ≠ "" → d ≠ "" → sd < ed →
      ∃ db' rep,
        generate_report t d (some sd) (some ed) (.user uid) none db =
          (db', .ok rep) ∧
        rep.id = db.nextReportId ∧
        rep.status = some "COMPLETED" ∧
        rep ∈ db'.reports ∧
        (∀ sp ∈ db.service_providers, ∀ jt : JobType,
          jobStatRowFor rep.id (jobsInWindow sd ed db.jobs) sp jt ∈
            db'.jobStats) ∧
        (∀ sp ∈ db.service_providers,
          orderStatRowFor rep.id (ordersInWindow sd ed db.orders) sp ∈
            db'.orderStats) ∧
        (∀ am ∈ db.account_managers,
          userStatRowFor rep.id db.customers
            (ordersInWindow sd ed db.orders) am ∈ db'.userStats) ∧
        (∀ c ∈ db.campaigns,
          campaignStatRowFor rep.id (ordersInWindow sd ed db.orders) c ∈
            db'.campaignStats)) := by
  refine ⟨?_, ?_, ?_, ?_, ?_, ?_, ?_, ?_⟩
  · intro t d sde ede c f db h
    simp [generate_report, h]
  · intro t d ede c f db ht hd
    have h1 : ¬ (t = "" ∨ d = "") := by
      rintro (h | h)
      exacts [ht h, hd h]
    cases ede <;> simp [generate_report, h1]
  · intro t d sde c f db ht hd
    have h1 : ¬ (t = "" ∨ d = "") := by
      rintro (h | h)
      exacts [ht h, hd h]
    cases sde <;> simp [generate_report, h1]
  · intro t d sd ed c f db ht hd hge
    have h1 : ¬ (t = "" ∨ d = "") := by
      rintro (h | h)
      exacts [ht h, hd h]
    simp [generate_report, h1, ge_iff_le, hge]
  · intro t d sd ed f db ht hd hlt
    have h1 : ¬ (t = "" ∨ d = "") := by
      rintro (h | h)
      exacts [ht h, hd h]
    simp [generate_report, h1, ge_iff_le, not_le.mpr hlt]
  · intro t d sd ed f db ht hd hlt
    have h1 : ¬ (t = "" ∨ d = "") := by
      rintro (h | h)
      exacts [ht h, hd h]
    simp [generate_report, h1, ge_iff_le, not_le.mpr hlt]
  · intro t d sde ede c f db e herr
    by_cases h1 : t = "" ∨ d = ""
    · simp [generate_report, h1]
    · cases sde with
      | none => simp [generate_report, h1]
      | some sd =>
        cases ede with
        | none => simp [generate_report, h1]
        | some ed =>
          by_cases hge : ed ≤ sd
          · simp [generate_report, h1, ge_iff_le, hge]
          · cases c with
            | noneArg => simp [generate_report, h1, ge_iff_le, hge]
            | notAModel => simp [generate_report, h1, ge_iff_le, hge]
            | user uid =>
              cases hb : generateReportBody t d sd ed uid f db with
              | ok val =>
                obtain ⟨db', rep⟩ := val
                simp [generate_report, h1, ge_iff_le, hge, hb] at herr
              | error be =>
                cases be with
                | validation e' =>
                  simp [generate_report, h1, ge_iff_le, hge, hb]
                | unexpected m =>
                  simp [generate_report, h1, ge_iff_le, hge, hb]
  · intro t d sd ed uid db ht hd hlt
    have h1 : ¬ (t = "" ∨ d = "") := by
      rintro (h | h)
      exacts [ht h, hd h]
    have hge : ¬ ed ≤ sd := not_le.mpr hlt
    refine ⟨genSuccessState t d sd ed uid db,
      completedReport t d sd ed uid db, ?_, rfl, rfl, ?_, ?_, ?_, ?_, ?_⟩
    · simp [generate_report, h1, ge_iff_le, hge,
        generateReportBody_none_ok t d sd ed uid db hlt]
    · show completedReport t d sd ed uid db ∈
        ((db.reports ++ [createdReport t d sd ed uid db]).map (fun x =>
          if x.id = (createdReport t d sd ed uid db).id then
            completedReport t d sd ed uid db
          else x))
      refine List.mem_map.mpr ⟨createdReport t d sd ed uid db, ?_, ?_⟩
      · exact List.mem_append_right _ (List.mem_singleton.mpr rfl)
      · simp
    · intro sp hsp jt
      exact runKeys_mem jobKey (fun k _ => jobKey_row _ k)
        (mem_jobKeys db.nextReportId jt hsp) db.jobStats
    · intro sp hsp
      exact runKeys_mem orderKey (fun k _ => orderKey_row _ k)
        (mem_orderKeys db.nextReportId hsp) db.orderStats
    · intro am ham
      exact runKeys_mem userKey (fun k _ => userKey_row _ _ k)
        (mem_userKeys db.nextReportId ham) db.userStats
    · intro c hc
      exact runKeys_mem campaignKey (fun k _ => campaignKey_row _ k)
        (mem_campaignKeys db.nextReportId hc) db.campaignStats

end StatAnalysis

namespace PITCTask

/-- **C8** — Window Resolver: for every year, `get_quarter_dates` maps Q1 to
[Jan 1, Mar 31], Q2 to [Apr 1, Jun 30], Q3 to [Jul 1, Sep 30] and Q4 to
[Oct 1, Dec 31] of that year (both endpoints inclusive), and fails with the
InvalidPeriod error for any other quarter label; `calculate_job_stats`
combines two resolved `(quarter, year)` endpoints into the window
`[min of the two start dates, max of the two end dates]` and returns
normally for every pair of valid labels — in particular no error is raised
when the `from` endpoint is chronologically later than the `to` endpoint. -/
theorem C8_quarter_window_resolver :
    (∀ y : Int, get_quarter_dates "Q1" y =
      .ok (⟨y, 1, 1⟩, ⟨y, 3, 31⟩)) ∧
    (∀ y : Int, get_quarter_dates "Q2" y =
      .ok (⟨y, 4, 1⟩, ⟨y, 6, 30⟩)) ∧
    (∀ y : Int, get_quarter_dates "Q3" y =
      .ok (⟨y, 7, 1⟩, ⟨y, 9, 30⟩)) ∧
    (∀ y : Int, get_quarter_dates "Q4" y =
      .ok (⟨y, 10, 1⟩, ⟨y, 12, 31⟩)) ∧
    (∀ (q : String) (y : Int), q ≠ "Q1" → q ≠ "Q2" → q ≠ "Q3" → q ≠ "Q4" →
      ∃ m, get_quarter_dates q y = .error (.invalidQuarter m)) ∧
    (∀ (qf : String) (yf : Int) (qt : String) (yt : Int) sf ef st et,
      get_quarter_dates qf yf = .ok (sf, ef) →
      get_quarter_dates qt yt = .ok (st, et) →
      calculate_job_stats_window qf yf qt yt =
        .ok (QDate.dmin sf st, QDate.dmax ef et)) := by
  refine ⟨fun y => rfl, fun y => rfl, fun y => rfl, fun y => rfl, ?_, ?_⟩
  · intro q y h1 h2 h3 h4
    refine ⟨"Invalid quarter. Please use Q1, Q2, Q3, or Q4.", ?_⟩
    simp [get_quarter_dates, h1, h2, h3, h4]
  · intro qf yf qt yt sf ef st et hf ht
    rw [calculate_job_stats_window, hf, ht]
    rfl

end PITCTask

namespace StatAnalysis

/-- Spec section 8 scenario: five orders for one provider, three COMPLETED
at 100 each and two CANCELLED, give totals 5, revenue 300, average order
value 100 and completion rate 60. -/
theorem order_statistics_scenario :
    orderStatRowFor 7 [scOrder 1 .completed, scOrder 2 .completed,
      scOrder 3 .completed, scOrder 4 .cancelled, scOrder 5 .cancelled] 1 =
      { report := 7, service_provider := 1, total_orders := 5,
        total_revenue := 300, average_order_value := 100,
        completion_rate := 60 } := by
  simp [orderStatRowFor, scOrder]
  norm_num

/-- Spec section 8 scenario: a manager with two customers, one of which has
a single 150-unit COMPLETED order in range, gets totals 2, 1, 150 and
average customer value 75. -/
theorem user_statistics_scenario :
    userStatRowFor 7 [scCust 1, scCust 2] [scOrder150] 9 =
      { report := 7, account_manager := 9, total_customers := 2,
        total_orders := 1, total_revenue := 150,
        average_customer_value := 75 } := by
  simp [userStatRowFor, scCust, scOrder150]
  norm_num

end StatAnalysis
